import Mathlib

/-!
Verification development for the Seoul-Micromobility-Optimizer core:
a shallow embedding of the scenario generator
(`frontend/src/utils/ScenarioGenerator.ts`) and of the optimization
pipeline (`frontend/src/services/api.ts`), together with proofs and
refutations of the specified properties.

Modelling conventions:
* JS numbers are modelled by an ordered field `R` with a floor function
  (`ℚ` for executable instantiations, `ℝ` for the claims whose truth
  depends on actual trigonometry).  The float constants 0.15 / 0.65 /
  0.20 / 0.25 are modelled by the exact rationals they denote; for the
  population sizes in scope (≤ 200) the double-precision products floor
  to the same integers as the exact rationals.
* `Math.cos`, `Math.sin`, `Math.sqrt`, `Math.atan2` and `Math.PI` are
  supplied by a `MathFns` record; the honest instantiation `realMF`
  uses the real functions, and a trivial computable instantiation
  `ratMF` over `ℚ` is used for concrete witnesses of structural claims.
* `Math.random()` results are environment-supplied oracle values, one
  oracle function per call site (indexed by loop iteration and retry
  attempt); any run of the program corresponds to some oracle.
* `Array.prototype.sort` (a stable sort; called once with a random
  comparator for shuffling, once with the descending-penalty
  comparator) is modelled by `List.insertionSort`, which is stable and
  always returns a permutation — exactly the guarantee ES2019 gives,
  with the comparator supplied by the environment.
* A thrown `TypeError` (indexing an empty anchor array and then reading
  `.lat` of `undefined`) is modelled by `Option.none` propagation.
* `turf.booleanPointInPolygon` is an external dependency; it is
  modelled as an environment-supplied boolean test on an abstract
  feature type `F`, which both the anchor filtering and the
  containment claims use consistently.
-/

/-- A `List.Forall`-style conjunction, kept local so that claim statements
contain no top-level binders of type `Prop`. -/
def AllP {α : Type} (p : α → Prop) : List α → Prop
  | [] => True
  | a :: l => p a ∧ AllP p l

/-- Property of the payload of an `Option`; `none` satisfies everything
(a crashed run emits nothing). -/
def OptF {α : Type} (p : α → Prop) : Option α → Prop
  | none => True
  | some a => p a

/-- JS array indexing (`l[i]` is `undefined` out of bounds; reading a
field of `undefined` throws, hence `Option`). -/
def jsIndex {α : Type} (l : List α) (i : ℤ) : Option α :=
  if h : 0 ≤ i ∧ i.toNat < l.length then some (l.get ⟨i.toNat, h.2⟩) else none

/-- Pair every element with its index, starting at `k`. -/
def withIdx {α : Type} : ℕ → List α → List (ℕ × α)
  | _, [] => []
  | k, a :: l => (k, a) :: withIdx (k + 1) l

/-- Consecutive pairs of a list (models the `i, i+1` loops over a
stop sequence). -/
def consecPairs {α : Type} (l : List α) : List (α × α) :=
  l.zip l.tail

/-- Matrix entry `m[i][j]` with JS' `|| 0` defaulting for missing entries. -/
def entryAt {R : Type} [Zero R] (m : List (List R)) (i j : ℕ) : R :=
  (m.getD i []).getD j 0

/-- A latitude/longitude pair (source `Coordinate`, fields `lat`/`lng`). -/
structure Coordinate (R : Type) where
  lat : R
  lng : R
deriving DecidableEq

/-- Source `ScooterState`: `"B"` (low battery) or `"C"` (high risk).
The type has exactly these two alternatives. -/
inductive ScooterState where
  | B
  | C
deriving DecidableEq

/-- Red-zone POI category (source `RedZonePOI.type`). -/
inductive POIType where
  | subway_exit
  | bus_stop
  | subway_station
deriving DecidableEq

/-- Source `RedZonePOI` (the `name`/`ref` display fields are omitted;
no claim mentions them). -/
structure RedZonePOI (R : Type) where
  location : Coordinate R
  ptype : POIType
deriving DecidableEq

/-- Ghost tag recording which generation batch produced an entity.  It
does not exist in the source `Scooter` record and no embedded function
reads it; it only lets the count claims distinguish the
commercial-anchored from the residential-anchored low-battery entities,
which carry identical observable fields. -/
inductive Origin where
  | subway
  | bus
  | commercial
  | residential
deriving DecidableEq

/-- The generator's `Scooter` record (current `ScenarioGenerator.ts`:
`id`, `location`, `state`, `batteryLevel`, `service_time`, `score`),
plus the ghost `origin` tag. -/
structure SGScooter (R : Type) where
  id : String
  location : Coordinate R
  state : ScooterState
  batteryLevel : ℤ
  service_time : ℕ
  score : ℚ
  origin : Origin
deriving DecidableEq

/-- The `Math` functions the embedded code calls.  `realMF` below is the
honest real-valued instantiation. -/
structure MathFns (R : Type) where
  cos : R → R
  sin : R → R
  sqrt : R → R
  atan2 : R → R → R
  pi : R

/-- JS `Math.atan2` on the reals (signed zero ignored). -/
noncomputable def jsAtan2 (y x : ℝ) : ℝ :=
  if 0 < x then Real.arctan (y / x)
  else if x = 0 then
    (if 0 < y then Real.pi / 2 else if y < 0 then -(Real.pi / 2) else 0)
  else
    (if 0 ≤ y then Real.arctan (y / x) + Real.pi else Real.arctan (y / x) - Real.pi)

/-- The honest instantiation of the `Math` library over `ℝ`. -/
noncomputable def realMF : MathFns ℝ :=
  { cos := Real.cos, sin := Real.sin, sqrt := Real.sqrt
    atan2 := jsAtan2, pi := Real.pi }

/-- A trivial computable instantiation over `ℚ`, used only to produce
concrete witnesses for claims that hold for every `MathFns`. -/
def ratMF : MathFns ℚ :=
  { cos := fun _ => 1, sin := fun _ => 0, sqrt := id
    atan2 := fun _ _ => 0, pi := 0 }

/-- JS `Math.round` (round half towards positive infinity). -/
def jsRound {R : Type} [LinearOrderedField R] [FloorRing R] (x : R) : R :=
  ((⌊x + 1 / 2⌋ : ℤ) : R)

/-! ## Scenario generator (`frontend/src/utils/ScenarioGenerator.ts`)

The generator runs after `fetchDistrictBoundaries` and the anchor
fetches have resolved; the environment carries their results (the
non-cached code path is modelled — the cache branches replay data that
was filtered by the same predicate on an earlier call). -/

/-- Everything `generateScenario` obtains from the network, from
`Math.random()` and from the external point-in-polygon test.
Each `ℕ → _` (resp. `ℕ → ℕ → _`) oracle is indexed by loop iteration
(resp. iteration and retry attempt). -/
structure GenEnv (R F : Type) where
  boundaries : List F
  inPoly : Coordinate R → F → Bool
  osmPOIs : List (RedZonePOI R)
  commercialAnchors : List (Coordinate R)
  residentialAnchors : List (Coordinate R)
  subwaySel : ℕ → R
  subwayAngle : ℕ → ℕ → R
  subwayRad : ℕ → ℕ → R
  subwayBattery : ℕ → R
  busSel : ℕ → R
  busAngle : ℕ → ℕ → R
  busRad : ℕ → ℕ → R
  busBattery : ℕ → R
  commSel : ℕ → R
  commAngle : ℕ → ℕ → R
  commRad : ℕ → ℕ → R
  resSel : ℕ → R
  resAngle : ℕ → ℕ → R
  resRad : ℕ → ℕ → R
  lbBattery : ℕ → R
  shuffleCmp : SGScooter R → SGScooter R → Bool

/-- Source constant `RED_ZONE_RADIUS_METERS` (line 21): the value in the
current file is 20, with the comment "Seoul regulation: within 20m of
subway station/exit or bus stop". -/
def RED_ZONE_RADIUS_METERS : ℚ := 20

/-- Source constant `HIGH_RISK_PERCENTAGE = 0.15`. -/
def HIGH_RISK_PERCENTAGE : ℚ := 15 / 100

/-- Source constant `COMMERCIAL_PERCENTAGE = 0.65`. -/
def COMMERCIAL_PERCENTAGE : ℚ := 65 / 100

/-- Source constant `RESIDENTIAL_PERCENTAGE = 0.20`. -/
def RESIDENTIAL_PERCENTAGE : ℚ := 20 / 100

/-- Source constant `TOWING_FINE = 40000`. -/
def TOWING_FINE : ℚ := 40000

/-- Source constant `BATTERY_SWAP_REVENUE = 5000`. -/
def BATTERY_SWAP_REVENUE : ℚ := 5000

/-- Source: `countHighRisk = Math.max(1, Math.floor(count * HIGH_RISK_PERCENTAGE))`. -/
def countHighRisk (count : ℕ) : ℕ :=
  max 1 (Int.toNat ⌊(count : ℚ) * HIGH_RISK_PERCENTAGE⌋)

/-- Source: `countNearBusStop = Math.max(0, Math.floor(countHighRisk * busStopShare))`
with the bus-stop share constant 0.25. -/
def countNearBusStop (count : ℕ) : ℕ :=
  max 0 (Int.toNat ⌊(countHighRisk count : ℚ) * (25 / 100)⌋)

/-- Source: `countNearSubway = countHighRisk - countNearBusStop`. -/
def countNearSubway (count : ℕ) : ℕ :=
  countHighRisk count - countNearBusStop count

/-- Source: `countCommercial = Math.floor(count * COMMERCIAL_PERCENTAGE)`. -/
def countCommercial (count : ℕ) : ℕ :=
  Int.toNat ⌊(count : ℚ) * COMMERCIAL_PERCENTAGE⌋

/-- Source: `countResidential = Math.floor(count * RESIDENTIAL_PERCENTAGE)`. -/
def countResidential (count : ℕ) : ℕ :=
  Int.toNat ⌊(count : ℚ) * RESIDENTIAL_PERCENTAGE⌋

/-- Source `isPointInDistricts`: true iff the point is inside at least
one feature of the district GeoJSON (the per-feature test is the
external `turf.booleanPointInPolygon`, supplied as `inPoly`). -/
def isPointInDistricts {R F : Type} (inPoly : Coordinate R → F → Bool)
    (point : Coordinate R) (districtGeoJSON : List F) : Bool :=
  districtGeoJSON.any (fun feature => inPoly point feature)

/-- Source `generatePointNearLocation`: polar jitter around `center`,
with `u_angle`, `u_rad` the two `Math.random()` draws. -/
def generatePointNearLocation {R : Type} [LinearOrderedField R]
    (mf : MathFns R) (u_angle u_rad : R) (center : Coordinate R)
    (minRadiusMeters maxRadiusMeters : R) : Coordinate R :=
  let angle := u_angle * 2 * mf.pi
  let radiusSquared := u_rad * (maxRadiusMeters * maxRadiusMeters -
      minRadiusMeters * minRadiusMeters) + minRadiusMeters * minRadiusMeters
  let radius := mf.sqrt radiusSquared
  let latOffset := radius * mf.cos angle / 111000
  let lngOffset := radius * mf.sin angle / 88000
  ⟨center.lat + latOffset, center.lng + lngOffset⟩

/-- The retry loop of `generateValidPointNearAnchor`; `attempt` is the
loop counter (= the oracle index) and `remaining` the attempts left. -/
def generateValidPointNearAnchorGo {R F : Type} [LinearOrderedField R]
    (mf : MathFns R) (inPoly : Coordinate R → F → Bool) (geo : List F)
    (uAngle uRad : ℕ → R) (anchor : Coordinate R) (minRadius maxRadius : R) :
    ℕ → ℕ → Coordinate R
  | _, 0 => anchor
  | attempt, remaining + 1 =>
    let jitteredPoint := generatePointNearLocation mf (uAngle attempt)
      (uRad attempt) anchor minRadius maxRadius
    if isPointInDistricts inPoly jitteredPoint geo then jitteredPoint
    else generateValidPointNearAnchorGo mf inPoly geo uAngle uRad anchor
      minRadius maxRadius (attempt + 1) remaining

/-- Source `generateValidPointNearAnchor` with its default
`maxAttempts = 10`: returns the first in-boundary jittered point, or
the anchor itself after ten failures. -/
def generateValidPointNearAnchor {R F : Type} [LinearOrderedField R]
    (mf : MathFns R) (inPoly : Coordinate R → F → Bool) (geo : List F)
    (uAngle uRad : ℕ → R) (anchor : Coordinate R) (minRadius maxRadius : R) :
    Coordinate R :=
  generateValidPointNearAnchorGo mf inPoly geo uAngle uRad anchor minRadius
    maxRadius 0 10

/-- Anchor selection: `anchors[Math.floor(Math.random() * anchors.length)]`. -/
def selectAnchor {R : Type} [LinearOrderedField R] [FloorRing R]
    (u : R) (anchors : List (Coordinate R)) : Option (Coordinate R) :=
  jsIndex anchors ⌊u * (anchors.length : R)⌋

/-- The POIs that survive the `isPointInDistricts` filter. -/
def validPOIs {R F : Type} (env : GenEnv R F) : List (RedZonePOI R) :=
  env.osmPOIs.filter
    (fun poi => isPointInDistricts env.inPoly poi.location env.boundaries)

/-- Filtered subway-exit anchor coordinates. -/
def subwayExitPOIs {R F : Type} (env : GenEnv R F) : List (Coordinate R) :=
  ((validPOIs env).filter (fun p => decide (p.ptype = POIType.subway_exit))).map
    (fun p => p.location)

/-- Filtered bus-stop anchor coordinates. -/
def busStopPOIs {R F : Type} (env : GenEnv R F) : List (Coordinate R) :=
  ((validPOIs env).filter (fun p => decide (p.ptype = POIType.bus_stop))).map
    (fun p => p.location)

/-- All red-zone anchors (subway exits and bus stops) available to the
high-risk batch. -/
def redzoneAnchors {R F : Type} (env : GenEnv R F) : List (Coordinate R) :=
  subwayExitPOIs env ++ busStopPOIs env

/-- One of the two high-risk generation loops (Batch A).  `i` is the
loop counter, `n` the iterations left; selecting from an empty anchor
array yields `undefined` and the subsequent `.lat` access throws, hence
`Option`. -/
def genHighRiskLoop {R F : Type} [LinearOrderedField R] [FloorRing R]
    (mf : MathFns R) (inPoly : Coordinate R → F → Bool) (geo : List F)
    (pois : List (Coordinate R)) (sel : ℕ → R) (uAngle uRad : ℕ → ℕ → R)
    (uBattery : ℕ → R) (idBase : String) (org : Origin) (maxRadius : R) :
    ℕ → ℕ → Option (List (SGScooter R))
  | _, 0 => some []
  | i, n + 1 => do
    let selectedPOI ← selectAnchor (sel i) pois
    let location := generateValidPointNearAnchor mf inPoly geo (uAngle i)
      (uRad i) selectedPOI 0 maxRadius
    let rest ← genHighRiskLoop mf inPoly geo pois sel uAngle uRad uBattery
      idBase org maxRadius (i + 1) n
    some ({ id := idBase ++ toString (i + 1), location := location
            state := ScooterState.C
            batteryLevel := ⌊uBattery i * 50⌋ + 20
            service_time := 5, score := TOWING_FINE, origin := org } :: rest)

/-- The commercial/residential location loops of Batch B (they collect
locations; the scooter records are built afterwards). -/
def genJitterLocLoop {R F : Type} [LinearOrderedField R] [FloorRing R]
    (mf : MathFns R) (inPoly : Coordinate R → F → Bool) (geo : List F)
    (anchors : List (Coordinate R)) (sel : ℕ → R) (uAngle uRad : ℕ → ℕ → R)
    (minRadius maxRadius : R) : ℕ → ℕ → Option (List (Coordinate R))
  | _, 0 => some []
  | i, n + 1 => do
    let anchor ← selectAnchor (sel i) anchors
    let location := generateValidPointNearAnchor mf inPoly geo (uAngle i)
      (uRad i) anchor minRadius maxRadius
    let rest ← genJitterLocLoop mf inPoly geo anchors sel uAngle uRad
      minRadius maxRadius (i + 1) n
    some (location :: rest)

/-- Source `allLowBatteryLocations.map((location, i) => ...)`: build the
low-battery scooter records (`state: 'B'`, 1-minute service, swap
revenue score); the `Origin` component is the ghost provenance tag. -/
def mkLowBatteryScooters {R : Type} [LinearOrderedField R] [FloorRing R]
    (uBattery : ℕ → R) : ℕ → List (Coordinate R × Origin) → List (SGScooter R)
  | _, [] => []
  | i, (location, org) :: rest =>
    { id := "S-LB-" ++ toString (i + 1), location := location
      state := ScooterState.B, batteryLevel := ⌊uBattery i * 20⌋
      service_time := 1, score := BATTERY_SWAP_REVENUE, origin := org } ::
      mkLowBatteryScooters uBattery (i + 1) rest

/-- The final shuffle `allScooters.sort(() => Math.random() - 0.5)`:
a stable sort under an environment-chosen comparator — some permutation
of the input. -/
def shuffleScooters {R : Type} (cmp : SGScooter R → SGScooter R → Bool)
    (l : List (SGScooter R)) : List (SGScooter R) :=
  List.insertionSort (fun a b => cmp a b = true) l

/-- Re-indexing: `allScooters.forEach((scooter, i) => scooter.id = S-(i+1))`. -/
def reassignIds {R : Type} : ℕ → List (SGScooter R) → List (SGScooter R)
  | _, [] => []
  | i, s :: rest => { s with id := "S-" ++ toString (i + 1) } :: reassignIds (i + 1) rest

/-- Source `generateScenario` (current `ScenarioGenerator.ts`), run
against already-fetched boundaries/anchors.  High-risk jitter radius is
`[0, RED_ZONE_RADIUS_METERS] = [0, 20]` metres, commercial `[15, 30]`,
residential `[20, 40]`.  `none` models the run aborting with a thrown
`TypeError` (empty anchor array). -/
def generateScenario {R F : Type} [LinearOrderedField R] [FloorRing R]
    (mf : MathFns R) (env : GenEnv R F) (count : ℕ) :
    Option (List (SGScooter R)) := do
  let districtGeoJSON := env.boundaries
  let highRiskSub ← genHighRiskLoop mf env.inPoly districtGeoJSON
    (subwayExitPOIs env) env.subwaySel env.subwayAngle env.subwayRad
    env.subwayBattery "S-HR-SUB-" Origin.subway
    ((RED_ZONE_RADIUS_METERS : ℚ) : R) 0 (countNearSubway count)
  let highRiskBus ← genHighRiskLoop mf env.inPoly districtGeoJSON
    (busStopPOIs env) env.busSel env.busAngle env.busRad env.busBattery
    "S-HR-BUS-" Origin.bus ((RED_ZONE_RADIUS_METERS : ℚ) : R) 0
    (countNearBusStop count)
  let highRiskScooters := highRiskSub ++ highRiskBus
  let filteredCommercialAnchors := env.commercialAnchors.filter
    (fun a => isPointInDistricts env.inPoly a districtGeoJSON)
  let commercialLocations ← genJitterLocLoop mf env.inPoly districtGeoJSON
    filteredCommercialAnchors env.commSel env.commAngle env.commRad 15 30 0
    (countCommercial count)
  let filteredResidentialAnchors := env.residentialAnchors.filter
    (fun a => isPointInDistricts env.inPoly a districtGeoJSON)
  let residentialLocations ← genJitterLocLoop mf env.inPoly districtGeoJSON
    filteredResidentialAnchors env.resSel env.resAngle env.resRad 20 40 0
    (countResidential count)
  let allLowBatteryLocations :=
    commercialLocations.map (fun l => (l, Origin.commercial)) ++
    residentialLocations.map (fun l => (l, Origin.residential))
  let lowBatteryScooters := mkLowBatteryScooters env.lbBattery 0
    allLowBatteryLocations
  let allScooters := highRiskScooters ++ lowBatteryScooters
  let shuffled := shuffleScooters env.shuffleCmp allScooters
  some (reassignIds 0 shuffled)

/-! ## Optimization pipeline (`frontend/src/services/api.ts`) -/

/-- The `Scooter` record as `api.ts` consumes it (`id`, `location`,
`state`, `penaltyValue`, `service_time`; the repo's later type
iteration).  The display-only fields are omitted. -/
structure ApiScooter (R : Type) where
  id : String
  location : Coordinate R
  state : ScooterState
  penaltyValue : R
  service_time : R
deriving DecidableEq

/-- Source `Hub` (the depot). -/
structure Hub (R : Type) where
  id : String
  location : Coordinate R
  name : String
deriving DecidableEq

/-- One vehicle's stop-name sequence of the solver response
(`OmeletRoute`; the cost-detail fields are not read by the parser). -/
structure OmeletRoute where
  vehicle_name : String
  route_name : List String
deriving DecidableEq

/-- The solver response (`response.routing_engine_result`). -/
structure OmeletVrpResponse where
  routes : List OmeletRoute
  unassigned_visit_names : List String
deriving DecidableEq

/-- Source `OptimizedRoute`. -/
structure OptimizedRoute (R : Type) where
  vehicleId : String
  path : List (Coordinate R)
  roadGeometry : List (List (Coordinate R))
  color : String
  distance : R
  duration : R
  scootersCollected : ℕ
  totalScore : R
  revenueCollected : R
  finesAvoided : R
  highRiskCollected : ℕ
  lowBatteryCollected : ℕ
deriving DecidableEq

/-- Everything `api.ts` obtains from the network:
* `hasInaviKey` — whether `INAVI_API_KEY` is set;
* `inavi` — the distance-matrix call: `none` when the fetch fails or
  returns a non-ok status, `some none` when the JSON matches none of
  the recognized envelope shapes, `some (some (dm, um))` for the
  extracted matrices;
* `omelet` — the VRP call: `none` when it fails (throws), otherwise
  the parsed response;
* `geometry` — the per-segment `fetchRoadGeometry` road-path request:
  `none` for a failed request (the source falls back to a straight
  line), `some coords` for the extracted coordinates. -/
structure ApiEnv (R : Type) where
  hasInaviKey : Bool
  inavi : Option (Option (List (List R) × List (List R)))
  omelet : Option OmeletVrpResponse
  geometry : Coordinate R → Coordinate R → Option (List (Coordinate R))

/-- Source `haversineDistance` (spherical great-circle distance in
metres, earth radius `6371e3`). -/
def haversineDistance {R : Type} [LinearOrderedField R]
    (mf : MathFns R) (coord1 coord2 : Coordinate R) : R :=
  let earthR : R := 6371000
  let toRad : R → R := fun deg => deg * mf.pi / 180
  let dLat := toRad (coord2.lat - coord1.lat)
  let dLng := toRad (coord2.lng - coord1.lng)
  let a := mf.sin (dLat / 2) * mf.sin (dLat / 2) +
    mf.cos (toRad coord1.lat) * mf.cos (toRad coord2.lat) *
    (mf.sin (dLng / 2) * mf.sin (dLng / 2))
  let c := 2 * mf.atan2 (mf.sqrt a) (mf.sqrt (1 - a))
  earthR * c

/-- Source `calculateEuclideanMatrices`: pairwise haversine distances,
durations at the assumed 30 km/h (`avgSpeedMps = 30 * 1000 / 3600`);
diagonal entries are set to 0.  The entries are *not* rounded here. -/
def calculateEuclideanMatrices {R : Type} [LinearOrderedField R]
    (mf : MathFns R) (locations : List (Coordinate R)) :
    List (List R) × List (List R) :=
  let n := locations.length
  let avgSpeedMps : R := 30 * 1000 / 3600
  let dist : ℕ → ℕ → R := fun i j =>
    haversineDistance mf (locations.getD i ⟨0, 0⟩) (locations.getD j ⟨0, 0⟩)
  ((List.range n).map (fun i => (List.range n).map (fun j =>
      if i = j then 0 else dist i j)),
   (List.range n).map (fun i => (List.range n).map (fun j =>
      if i = j then 0 else dist i j / avgSpeedMps)))

/-- The per-entry `Math.round(Number(val) || 0)` integer conversion
applied to matrices extracted from the remote response. -/
def roundIntMatrix {R : Type} [LinearOrderedField R] [FloorRing R]
    (m : List (List R)) : List (List R) :=
  m.map (fun row => row.map jsRound)

/-- Source `getDistanceMatrix`, with a boolean recording whether the
remote request was issued (the `fetch` call is reached exactly when
there are at least 3 locations and a key is configured).  The function
is total: every failure branch returns the local haversine matrices. -/
def getDistanceMatrixAux {R : Type} [LinearOrderedField R] [FloorRing R]
    (mf : MathFns R) (env : ApiEnv R) (locations : List (Coordinate R)) :
    (List (List R) × List (List R)) × Bool :=
  if locations.length < 3 then (calculateEuclideanMatrices mf locations, false)
  else if env.hasInaviKey then
    match env.inavi with
    | none => (calculateEuclideanMatrices mf locations, true)
    | some none => (calculateEuclideanMatrices mf locations, true)
    | some (some (distanceMatrix, durationMatrix)) =>
      if distanceMatrix.isEmpty || durationMatrix.isEmpty then
        (calculateEuclideanMatrices mf locations, true)
      else
        ((roundIntMatrix distanceMatrix, roundIntMatrix durationMatrix), true)
  else (calculateEuclideanMatrices mf locations, false)

/-- The function `getDistanceMatrix` proper (the matrix pair). -/
def getDistanceMatrix {R : Type} [LinearOrderedField R] [FloorRing R]
    (mf : MathFns R) (env : ApiEnv R) (locations : List (Coordinate R)) :
    List (List R) × List (List R) :=
  (getDistanceMatrixAux mf env locations).1

/-- A visit of the Omelet request (`buildVrpRequest`): volume 0 for
high-risk, 1 for low-battery; unassigned penalty = the scooter's
penalty value. -/
structure VrpVisit (R : Type) where
  name : String
  coordinate : Coordinate R
  volume : R
  service_time : R
  unassigned_penalty : R

/-- The Omelet request (time strings and static options omitted). -/
structure OmeletVrpRequest (R : Type) where
  depotName : String
  depotCoordinate : Coordinate R
  visits : List (VrpVisit R)
  vehicleCount : ℕ
  volume_capacity : R
  distance_matrix : List (List R)
  duration_matrix : List (List R)

/-- Source `buildVrpRequest` (matrices rounded to integers for the
solver). -/
def buildVrpRequest {R : Type} [LinearOrderedField R] [FloorRing R]
    (scooters : List (ApiScooter R)) (hub : Hub R) (truckCount : ℕ)
    (distanceMatrix durationMatrix : List (List R)) : OmeletVrpRequest R :=
  { depotName := hub.name, depotCoordinate := hub.location
    visits := scooters.map (fun s =>
      { name := s.id, coordinate := s.location
        volume := if s.state = ScooterState.C then 0 else 1
        service_time := s.service_time
        unassigned_penalty := s.penaltyValue })
    vehicleCount := truckCount, volume_capacity := 20
    distance_matrix := roundIntMatrix distanceMatrix
    duration_matrix := roundIntMatrix durationMatrix }

/-- Mock route colors. -/
def MOCK_COLORS : List String := ["#3b82f6", "#ef4444", "#22c55e", "#f97316"]

/-- The `nameToIndex` lookup object: the hub name is inserted first
with index 0 and each scooter id then with its index + 1, so for
duplicate keys the *last* insertion wins. -/
def nameToIndex {R : Type} (hub : Hub R) (scooters : List (ApiScooter R))
    (name : String) : Option ℕ :=
  (withIdx 0 scooters).foldl
    (fun acc p => if p.2.id = name then some (p.1 + 1) else acc)
    (if name = hub.name then some 0 else none)

/-- Waypoint resolution of the parser: the hub name maps to the hub
location, a scooter id to the (first) matching scooter's location, and
an unknown name defaults to the hub location. -/
def resolveWaypoint {R : Type} (hub : Hub R) (scooters : List (ApiScooter R))
    (name : String) : Coordinate R :=
  if name = hub.name then hub.location
  else
    match scooters.find? (fun s => s.id = name) with
    | some scooter => scooter.location
    | none => hub.location

/-- The `fetchRoadGeometry` result for one segment: the extracted
coordinates if the request succeeded non-emptily, else the straight
line `[from, to]`. -/
def segmentGeometry {R : Type} (env : ApiEnv R) (p q : Coordinate R) :
    List (Coordinate R) :=
  match env.geometry p q with
  | some (c :: cs) => c :: cs
  | _ => [p, q]

/-- The accumulator of the per-route stats loop of
`parseVrpResponseWithGeometry`. -/
structure RouteStats (R : Type) where
  totalDistance : R
  totalDuration : R
  totalScore : R
  revenueCollected : R
  finesAvoided : R
  highRiskCollected : ℕ
  lowBatteryCollected : ℕ
  visitedScooters : ℕ

/-- The matrix-accumulation part of one stats-loop step: both indices
resolved and the distance row present (per the source's guard); missing
entries default to 0. -/
def distStep {R : Type} [LinearOrderedField R] (hub : Hub R)
    (scooters : List (ApiScooter R)) (dm um : List (List R))
    (st : RouteStats R) (pr : String × String) : RouteStats R :=
  match nameToIndex hub scooters pr.1, nameToIndex hub scooters pr.2 with
  | some fromIdx, some toIdx =>
    if fromIdx < dm.length then
      { st with totalDistance := st.totalDistance + entryAt dm fromIdx toIdx
                totalDuration := st.totalDuration + entryAt um fromIdx toIdx }
    else st
  | _, _ => st

/-- One step of the stats loop, for the consecutive pair
`(fromName, toName)`: matrix lookups, then classification of the
visited scooter. -/
def stepStat {R : Type} [LinearOrderedField R] (hub : Hub R)
    (scooters : List (ApiScooter R)) (dm um : List (List R))
    (st : RouteStats R) (pr : String × String) : RouteStats R :=
  let toName := pr.2
  let st1 := distStep hub scooters dm um st pr
  if toName ≠ hub.name then
    match scooters.find? (fun s => s.id = toName) with
    | some scooter =>
      let st2 := { st1 with
        totalScore := st1.totalScore + scooter.penaltyValue
        visitedScooters := st1.visitedScooters + 1
        totalDuration := st1.totalDuration + scooter.service_time * 60 }
      match scooter.state with
      | ScooterState.B =>
        { st2 with revenueCollected := st2.revenueCollected + scooter.penaltyValue
                   lowBatteryCollected := st2.lowBatteryCollected + 1 }
      | ScooterState.C =>
        { st2 with finesAvoided := st2.finesAvoided + scooter.penaltyValue
                   highRiskCollected := st2.highRiskCollected + 1 }
    | none => st1
  else st1

/-- Source `parseVrpResponseWithGeometry`. -/
def parseVrpResponseWithGeometry {R : Type} [LinearOrderedField R]
    (env : ApiEnv R) (response : OmeletVrpResponse)
    (scooters : List (ApiScooter R)) (hub : Hub R) (dm um : List (List R)) :
    List (OptimizedRoute R) :=
  (withIdx 0 response.routes).map (fun p =>
    let index := p.1
    let route := p.2
    let waypoints := route.route_name.map (resolveWaypoint hub scooters)
    let roadGeometry := (consecPairs waypoints).map
      (fun seg => segmentGeometry env seg.1 seg.2)
    let st := (consecPairs route.route_name).foldl
      (stepStat hub scooters dm um) ⟨0, 0, 0, 0, 0, 0, 0, 0⟩
    { vehicleId := route.vehicle_name, path := waypoints
      roadGeometry := roadGeometry
      color := MOCK_COLORS.getD (index % MOCK_COLORS.length) ""
      distance := st.totalDistance, duration := st.totalDuration
      scootersCollected := st.visitedScooters, totalScore := st.totalScore
      revenueCollected := st.revenueCollected
      finesAvoided := st.finesAvoided
      highRiskCollected := st.highRiskCollected
      lowBatteryCollected := st.lowBatteryCollected })

/-- Source `generateMockRoutes` (the degraded-mode router): greedy
descending-penalty sort, contiguous chunks of size
`ceil(length / truckCount)`, synthetic statistics. -/
def generateMockRoutes {R : Type} [LinearOrderedField R]
    (scooters : List (ApiScooter R)) (hub : Hub R) (truckCount : ℕ) :
    List (OptimizedRoute R) :=
  let sortedScooters := List.insertionSort
    (fun a b : ApiScooter R => b.penaltyValue ≤ a.penaltyValue) scooters
  let chunkSize := if truckCount = 0 then 0
    else (sortedScooters.length + truckCount - 1) / truckCount
  (List.range truckCount).filterMap (fun i =>
    let chunk := (sortedScooters.drop (i * chunkSize)).take chunkSize
    if chunk.isEmpty then none
    else
      some { vehicleId := "Mock-Truck-" ++ toString (i + 1)
             path := hub.location :: (chunk.map (fun s => s.location) ++ [hub.location])
             roadGeometry := []
             color := MOCK_COLORS.getD (i % MOCK_COLORS.length) ""
             distance := (chunk.length : R) * 2000
             duration := (chunk.map (fun s => s.service_time * 60)).sum +
               (chunk.length : R) * 300
             scootersCollected := chunk.length
             totalScore := (chunk.map (fun s => s.penaltyValue)).sum
             revenueCollected := ((chunk.filter
               (fun s => decide (s.state = ScooterState.B))).map
               (fun s => s.penaltyValue)).sum
             finesAvoided := ((chunk.filter
               (fun s => decide (s.state = ScooterState.C))).map
               (fun s => s.penaltyValue)).sum
             highRiskCollected := (chunk.filter
               (fun s => decide (s.state = ScooterState.C))).length
             lowBatteryCollected := (chunk.filter
               (fun s => decide (s.state = ScooterState.B))).length })

/-- The location list solveVrp builds (depot first), after the 200-cap
truncation. -/
def solveVrpLocations {R : Type} (scooters : List (ApiScooter R))
    (hub : Hub R) : List (Coordinate R) :=
  let locations0 := hub.location :: scooters.map (fun s => s.location)
  if locations0.length > 200 then locations0.take 200 else locations0

/-- The scooter list solveVrp keeps after truncation
(`scooters.slice(0, locations.length - 1)`). -/
def workingScooters {R : Type} (scooters : List (ApiScooter R))
    (hub : Hub R) : List (ApiScooter R) :=
  let locations0 := hub.location :: scooters.map (fun s => s.location)
  if locations0.length > 200 then
    scooters.take ((solveVrpLocations scooters hub).length - 1)
  else scooters

/-- Source `solveVrp`: truncate to the 200-location cap, obtain the
matrix pair, call the solver; any thrown error (in the model: only the
Omelet call can throw) is caught and answered with
`generateMockRoutes` applied to the *original* scooter list. -/
def solveVrp {R : Type} [LinearOrderedField R] [FloorRing R]
    (mf : MathFns R) (env : ApiEnv R) (scooters : List (ApiScooter R))
    (hub : Hub R) (truckCount : ℕ) : List (OptimizedRoute R) :=
  let locations := solveVrpLocations scooters hub
  let working := workingScooters scooters hub
  let mats := getDistanceMatrix mf env locations
  match env.omelet with
  | none => generateMockRoutes scooters hub truckCount
  | some response =>
    parseVrpResponseWithGeometry env response working hub mats.1 mats.2

/-! ## Claim-level predicates and concrete inputs -/

/-- Count of emitted high-risk (state `C`) entities. -/
def countStateC {R : Type} (l : List (SGScooter R)) : ℕ :=
  l.countP (fun s => decide (s.state = ScooterState.C))

/-- Count of emitted entities of a given generation batch. -/
def countOrigin {R : Type} (o : Origin) (l : List (SGScooter R)) : ℕ :=
  l.countP (fun s => decide (s.origin = o))

/-- The code's own planar metric for an offset from an anchor: the
generator converts a metre offset `(r cos θ, r sin θ)` to degrees by
dividing by 111000 (lat) and 88000 (lng), so scaling the degree offsets
back recovers the squared jitter radius. -/
def planarOffsetSq (anchor p : Coordinate ℝ) : ℝ :=
  (111000 * (p.lat - anchor.lat)) ^ 2 + (88000 * (p.lng - anchor.lng)) ^ 2

/-- The radius oracles of the high-risk batch produce values in `[0,1)`
(what `Math.random()` guarantees). -/
def RadInRange {F : Type} (env : GenEnv ℝ F) : Prop :=
  (∀ i k, 0 ≤ env.subwayRad i k ∧ env.subwayRad i k < 1) ∧
  (∀ i k, 0 ≤ env.busRad i k ∧ env.busRad i k < 1)

/-- Claim C3 as stated: every emitted high-risk entity is within 5
metres great-circle distance of some red-zone anchor. -/
def c3ClaimProp {F : Type} (env : GenEnv ℝ F) (count : ℕ) : Prop :=
  ∀ out, generateScenario realMF env count = some out →
    ∀ s ∈ out, s.state = ScooterState.C →
      ∃ a ∈ redzoneAnchors env, haversineDistance realMF s.location a ≤ 5

/-- Environment refuting C3: one subway-exit anchor, a point-in-polygon
test that accepts everything, and a jitter draw of radius²
`= 361/400 · 400 = 361`, i.e. radius 19 m (legal under the code's
0–20 m band, forbidden by the claimed 0–5 m band). -/
noncomputable def env3 : GenEnv ℝ Unit :=
  { boundaries := [()]
    inPoly := fun _ _ => true
    osmPOIs := [{ location := ⟨(37.5 : ℝ), 127⟩, ptype := POIType.subway_exit }]
    commercialAnchors := []
    residentialAnchors := []
    subwaySel := fun _ => 0
    subwayAngle := fun _ _ => 0
    subwayRad := fun _ _ => 361 / 400
    subwayBattery := fun _ => 0
    busSel := fun _ => 0
    busAngle := fun _ _ => 0
    busRad := fun _ _ => 0
    busBattery := fun _ => 0
    commSel := fun _ => 0
    commAngle := fun _ _ => 0
    commRad := fun _ _ => 0
    resSel := fun _ => 0
    resAngle := fun _ _ => 0
    resRad := fun _ _ => 0
    lbBattery := fun _ => 0
    shuffleCmp := fun _ _ => true }

/-- The single scooter `generateScenario realMF env3 1` emits:
19 m due north (in the code's planar conversion) of the anchor. -/
noncomputable def sc3 : SGScooter ℝ :=
  { id := "S-1", location := ⟨(37.5 : ℝ) + 19 / 111000, 127⟩
    state := ScooterState.C, batteryLevel := 20, service_time := 5
    score := TOWING_FINE, origin := Origin.subway }

/-- Witness environment for the count claims: every anchor category has
one anchor, every oracle returns 0, the containment test accepts
everything. -/
def env1 : GenEnv ℚ Unit :=
  { boundaries := [()]
    inPoly := fun _ _ => true
    osmPOIs := [{ location := ⟨0, 0⟩, ptype := POIType.subway_exit }]
    commercialAnchors := [⟨1, 1⟩]
    residentialAnchors := [⟨2, 2⟩]
    subwaySel := fun _ => 0
    subwayAngle := fun _ _ => 0
    subwayRad := fun _ _ => 0
    subwayBattery := fun _ => 0
    busSel := fun _ => 0
    busAngle := fun _ _ => 0
    busRad := fun _ _ => 0
    busBattery := fun _ => 0
    commSel := fun _ => 0
    commAngle := fun _ _ => 0
    commRad := fun _ _ => 0
    resSel := fun _ => 0
    resAngle := fun _ _ => 0
    resRad := fun _ _ => 0
    lbBattery := fun _ => 0
    shuffleCmp := fun _ _ => true }

/-- Failing input for C9: the red-zone POI query returned an empty
element set (a valid response per the fetch layer), the other anchor
queries succeeded. -/
def env9 : GenEnv ℚ Unit :=
  { boundaries := [()]
    inPoly := fun _ _ => true
    osmPOIs := []
    commercialAnchors := [⟨0, 0⟩]
    residentialAnchors := [⟨0, 0⟩]
    subwaySel := fun _ => 0
    subwayAngle := fun _ _ => 0
    subwayRad := fun _ _ => 0
    subwayBattery := fun _ => 0
    busSel := fun _ => 0
    busAngle := fun _ _ => 0
    busRad := fun _ _ => 0
    busBattery := fun _ => 0
    commSel := fun _ => 0
    commAngle := fun _ _ => 0
    commRad := fun _ _ => 0
    resSel := fun _ => 0
    resAngle := fun _ _ => 0
    resRad := fun _ _ => 0
    lbBattery := fun _ => 0
    shuffleCmp := fun _ _ => true }

/-- Two locations (fewer than 3): the matrix provider must not contact
the remote service. -/
def locsTwo : List (Coordinate ℚ) := [⟨0, 0⟩, ⟨1, 1⟩]

/-- A fully-provisioned remote environment (key set, parseable
response, solver absent). -/
def apiEnvKeyed : ApiEnv ℚ :=
  { hasInaviKey := true, inavi := some (some ([[5]], [[5]]))
    omelet := none, geometry := fun _ _ => none }

/-- Three locations for the C5 counterexample. -/
def locsThree : List (Coordinate ℝ) := [⟨0, 0⟩, ⟨1, 0⟩, ⟨2, 0⟩]

/-- Remote environment whose response passes the code's validation
(both matrices non-empty) but is 1×1 for a 3-location request. -/
def apiEnvBadMatrix : ApiEnv ℝ :=
  { hasInaviKey := true, inavi := some (some ([[5]], [[7]]))
    omelet := none, geometry := fun _ _ => none }

/-- Claim C5 as stated, for one distance matrix: square with the input
side length, zero diagonal, and every entry a non-negative integer. -/
def matrixClaimProps (m : List (List ℝ)) (n : ℕ) : Prop :=
  m.length = n ∧ AllP (fun row => row.length = n) m ∧
  (∀ i, entryAt m i i = 0) ∧
  AllP (AllP (fun x => 0 ≤ x ∧ ∃ k : ℤ, x = (k : ℝ))) m

/-- Antipodal-ish pair on the equator: the haversine distance is
exactly `6371000·π` metres, which is irrational. -/
def pAntipA : Coordinate ℝ := ⟨0, 0⟩

/-- Second point for the C6 counterexample (180° east). -/
def pAntipB : Coordinate ℝ := ⟨0, 180⟩

/-- Claim C6 as stated: the fallback entries are the *rounded*
haversine distance and the *rounded* travel duration. -/
def c6ClaimAt (locations : List (Coordinate ℝ)) : Prop :=
  ∀ i j, i < locations.length → j < locations.length → i ≠ j →
    entryAt (calculateEuclideanMatrices realMF locations).1 i j =
      jsRound (haversineDistance realMF (locations.getD i ⟨0, 0⟩)
        (locations.getD j ⟨0, 0⟩)) ∧
    entryAt (calculateEuclideanMatrices realMF locations).2 i j =
      jsRound (entryAt (calculateEuclideanMatrices realMF locations).1 i j /
        (30000 / 3600))

/-- Depot for the C7 counterexample. -/
def hub0 : Hub ℚ := { id := "H", location := ⟨1000, 1000⟩, name := "Hub" }

/-- A population of 200 distinct scooters (201 locations with the depot, above the
cap); penalties strictly decreasing so the greedy sort preserves the
order. -/
def scooters200 : List (ApiScooter ℚ) :=
  (List.range 200).map (fun j =>
    { id := "X-" ++ toString j
      location := ⟨((j : ℤ) : ℚ), ((j : ℤ) : ℚ)⟩
      state := ScooterState.C
      penaltyValue := ((100000 - (j : ℤ) : ℤ) : ℚ)
      service_time := 1 })

/-- Environment in which the Omelet call fails, so `solveVrp` answers
from the degraded-mode router. -/
def apiEnvNoSolver : ApiEnv ℚ :=
  { hasInaviKey := false, inavi := none, omelet := none
    geometry := fun _ _ => none }

/-- Environment in which the Omelet call succeeds with zero routes. -/
def apiEnvSolverEmpty : ApiEnv ℚ :=
  { hasInaviKey := false, inavi := none
    omelet := some { routes := [], unassigned_visit_names := [] }
    geometry := fun _ _ => none }

/-- Claim C7 as stated (at a `ℚ` instantiation): when the location
count exceeds the 200 cap, exactly 200 locations are used (depot as
element zero plus the first 199 entities) and entities beyond the cap
appear in no route of the returned result, on every return path. -/
def c7ClaimAt (mf : MathFns ℚ) (env : ApiEnv ℚ)
    (scooters : List (ApiScooter ℚ)) (hub : Hub ℚ) (truckCount : ℕ) : Prop :=
  200 < (hub.location :: scooters.map (fun s => s.location)).length →
    ((solveVrpLocations scooters hub).length = 200 ∧
     (solveVrpLocations scooters hub).head? = some hub.location ∧
     (solveVrpLocations scooters hub).tail =
       (scooters.take 199).map (fun s => s.location)) ∧
    ∀ r ∈ solveVrp mf env scooters hub truckCount,
      ∀ s ∈ scooters.drop 199, s.location ∉ r.path

/-! ## General lemmas -/

theorem allP_iff_mem {α : Type} {p : α → Prop} :
    ∀ {l : List α}, AllP p l ↔ ∀ a ∈ l, p a := by
  intro l
  induction l with
  | nil => simp [AllP]
  | cons a l ih => simp [AllP, ih]

theorem allP_of_perm {α : Type} {p : α → Prop} {l₁ l₂ : List α}
    (h : l₁.Perm l₂) (hl : AllP p l₁) : AllP p l₂ := by
  rw [allP_iff_mem] at hl ⊢
  exact fun a ha => hl a (h.mem_iff.mpr ha)

theorem jsIndex_nil {α : Type} (i : ℤ) : jsIndex ([] : List α) i = none := by
  simp [jsIndex]

theorem jsIndex_mem {α : Type} {l : List α} {i : ℤ} {a : α}
    (h : jsIndex l i = some a) : a ∈ l := by
  unfold jsIndex at h
  split at h
  · cases h
    exact List.get_mem _ _ _
  · cases h

theorem selectAnchor_mem {R : Type} [LinearOrderedField R] [FloorRing R]
    {u : R} {anchors : List (Coordinate R)} {a : Coordinate R}
    (h : selectAnchor u anchors = some a) : a ∈ anchors :=
  jsIndex_mem h

/-! ## C4 / C10: the matrix provider's fallback discipline -/

/-- C4: `getDistanceMatrix` never raises — it is a total function into
matrix pairs — and in each of the four degraded situations (fewer than
3 locations; no credential; remote call failed; response unparseable or
failing validation) it returns exactly the local haversine matrices. -/
theorem c4_fallback_totality {R : Type} [LinearOrderedField R] [FloorRing R]
    (mf : MathFns R) (env : ApiEnv R) (locations : List (Coordinate R))
    (h : locations.length < 3 ∨ env.hasInaviKey = false ∨ env.inavi = none ∨
      env.inavi = some none ∨ ∃ dm um, env.inavi = some (some (dm, um)) ∧
        (dm.isEmpty ∨ um.isEmpty)) :
    getDistanceMatrix mf env locations = calculateEuclideanMatrices mf locations := by
  unfold getDistanceMatrix getDistanceMatrixAux
  by_cases h3 : locations.length < 3
  · simp [h3]
  · rw [if_neg h3]
    cases hk : env.hasInaviKey with
    | false => simp
    | true =>
      rw [if_pos rfl]
      rcases h with h | h | h | h | ⟨dm, um, h, hemp⟩
      · exact absurd h h3
      · simp [hk] at h
      · rw [h]
      · rw [h]
      · rw [h]
        rcases hemp with he | he <;> simp [he]

/-- Witness for C4 at a concrete degraded input (two locations, key
configured, parseable response — the small-input case fires first). -/
theorem c4_fallback_totality_witness :
    (locsTwo.length < 3 ∨ apiEnvKeyed.hasInaviKey = false ∨
      apiEnvKeyed.inavi = none ∨ apiEnvKeyed.inavi = some none ∨
      ∃ dm um, apiEnvKeyed.inavi = some (some (dm, um)) ∧
        (dm.isEmpty ∨ um.isEmpty)) ∧
    getDistanceMatrix ratMF apiEnvKeyed locsTwo =
      calculateEuclideanMatrices ratMF locsTwo :=
  ⟨Or.inl (by decide),
   c4_fallback_totality ratMF apiEnvKeyed locsTwo (Or.inl (by decide))⟩

/-- C10: with fewer than 3 locations the provider computes the matrix
pair locally and the remote request is never issued (the `Bool`
component of `getDistanceMatrixAux` records whether the `fetch` call
was reached), regardless of the configured credential. -/
theorem c10_local_small_input {R : Type} [LinearOrderedField R] [FloorRing R]
    (mf : MathFns R) (env : ApiEnv R) (locations : List (Coordinate R))
    (h : locations.length < 3) :
    getDistanceMatrixAux mf env locations =
      (calculateEuclideanMatrices mf locations, false) := by
  unfold getDistanceMatrixAux
  simp [h]

/-- Witness for C10: a depot plus one entity, with the remote
credential configured. -/
theorem c10_local_small_input_witness :
    locsTwo.length < 3 ∧ apiEnvKeyed.hasInaviKey = true ∧
    getDistanceMatrixAux ratMF apiEnvKeyed locsTwo =
      (calculateEuclideanMatrices ratMF locsTwo, false) :=
  ⟨by decide, rfl, c10_local_small_input ratMF apiEnvKeyed locsTwo (by decide)⟩

/-! ## C8: totalScore = revenueCollected + finesAvoided -/

theorem distStep_totalScore {R : Type} [LinearOrderedField R] (hub : Hub R)
    (scooters : List (ApiScooter R)) (dm um : List (List R))
    (st : RouteStats R) (pr : String × String) :
    (distStep hub scooters dm um st pr).totalScore = st.totalScore ∧
    (distStep hub scooters dm um st pr).revenueCollected = st.revenueCollected ∧
    (distStep hub scooters dm um st pr).finesAvoided = st.finesAvoided := by
  unfold distStep
  cases nameToIndex hub scooters pr.1 <;> cases nameToIndex hub scooters pr.2 <;>
    simp <;> split <;> simp

theorem stepStat_inv {R : Type} [LinearOrderedField R] (hub : Hub R)
    (scooters : List (ApiScooter R)) (dm um : List (List R))
    (st : RouteStats R) (pr : String × String)
    (h : st.totalScore = st.revenueCollected + st.finesAvoided) :
    (stepStat hub scooters dm um st pr).totalScore =
      (stepStat hub scooters dm um st pr).revenueCollected +
      (stepStat hub scooters dm um st pr).finesAvoided := by
  obtain ⟨h1, h2, h3⟩ := distStep_totalScore hub scooters dm um st pr
  unfold stepStat
  dsimp only
  split
  · cases hf : scooters.find? (fun s => s.id = pr.2) with
    | none => simp [h1, h2, h3, h]
    | some scooter =>
      cases hs : scooter.state <;> simp [hs, h1, h2, h3, h] <;> ring
  · simp [h1, h2, h3, h]

theorem foldl_stats_inv {R : Type} [LinearOrderedField R] (hub : Hub R)
    (scooters : List (ApiScooter R)) (dm um : List (List R)) :
    ∀ (l : List (String × String)) (st : RouteStats R),
      st.totalScore = st.revenueCollected + st.finesAvoided →
      (l.foldl (stepStat hub scooters dm um) st).totalScore =
        (l.foldl (stepStat hub scooters dm um) st).revenueCollected +
        (l.foldl (stepStat hub scooters dm um) st).finesAvoided := by
  intro l
  induction l with
  | nil => intro st h; exact h
  | cons pr l ih =>
    intro st h
    exact ih (stepStat hub scooters dm um st pr)
      (stepStat_inv hub scooters dm um st pr h)

theorem penalty_sum_split {R : Type} [LinearOrderedField R]
    (l : List (ApiScooter R)) :
    (l.map (fun s => s.penaltyValue)).sum =
      ((l.filter (fun s => decide (s.state = ScooterState.B))).map
        (fun s => s.penaltyValue)).sum +
      ((l.filter (fun s => decide (s.state = ScooterState.C))).map
        (fun s => s.penaltyValue)).sum := by
  induction l with
  | nil => simp
  | cons a l ih =>
    cases ha : a.state <;> simp [List.filter_cons, ha, ih] <;> ring

/-- C8: on both return paths of the optimize operation — the
solver-response interpretation and the degraded-mode router — every
produced route satisfies `totalScore = revenueCollected + finesAvoided`
(the scooter state type has exactly the two alternatives `B` and `C`, so
each visited penalty lands in exactly one of the two buckets). -/
theorem c8_score_decomposition {R : Type} [LinearOrderedField R] [FloorRing R]
    (mf : MathFns R) (env : ApiEnv R) (scooters : List (ApiScooter R))
    (hub : Hub R) (truckCount : ℕ) :
    AllP (fun r => r.totalScore = r.revenueCollected + r.finesAvoided)
      (solveVrp mf env scooters hub truckCount) := by
  unfold solveVrp
  cases ho : env.omelet with
  | none =>
    rw [allP_iff_mem]
    intro r hr
    unfold generateMockRoutes at hr
    rcases List.mem_filterMap.mp hr with ⟨i, _, hmk⟩
    dsimp only at hmk
    split at hmk
    · simp at hmk
    · split at hmk
      · simp at hmk
      · rw [Option.some_inj] at hmk
        subst hmk
        exact penalty_sum_split _
  | some response =>
    rw [allP_iff_mem]
    intro r hr
    unfold parseVrpResponseWithGeometry at hr
    rcases List.mem_map.mp hr with ⟨p, _, rfl⟩
    exact foldl_stats_inv _ _ _ _ _ _ (by simp)

/-! ## C5 / C6: fallback matrix shape and entry values -/

theorem getD_map_range {α : Type} (f : ℕ → α) (d : α) (n i : ℕ) :
    ((List.range n).map f).getD i d = if i < n then f i else d := by
  rw [List.getD_eq_getD_get?]
  rcases lt_or_ge i n with h | h
  · rw [List.get?_map, List.get?_range h]
    simp [h]
  · rw [List.get?_eq_none.mpr (by simpa using h)]
    simp [Nat.not_lt.mpr h]

theorem jsAtan2_nonneg {y x : ℝ} (hy : 0 ≤ y) (hx : 0 ≤ x) :
    0 ≤ jsAtan2 y x := by
  unfold jsAtan2
  rcases hx.lt_or_eq with hx' | hx'
  · rw [if_pos hx']
    rw [← Real.arctan_zero]
    exact Real.arctan_strictMono.monotone (div_nonneg hy hx'.le)
  · have hx0 : x = 0 := hx'.symm
    rw [if_neg (by simp [hx0]), if_pos hx0]
    by_cases hy0 : 0 < y
    · rw [if_pos hy0]
      positivity
    · rw [if_neg hy0, if_neg (by linarith)]

theorem haversineDistance_nonneg (p q : Coordinate ℝ) :
    0 ≤ haversineDistance realMF p q := by
  unfold haversineDistance realMF
  dsimp only
  apply mul_nonneg (by norm_num)
  apply mul_nonneg (by norm_num)
  exact jsAtan2_nonneg (Real.sqrt_nonneg _) (Real.sqrt_nonneg _)

/-- Amended C5: the locally computed distance matrix is square with the
input side length, its diagonal is 0 and all entries are non-negative —
but real-valued (no rounding happens on the local path); the
integer-ness the claim asserts holds exactly of the rounding step the
*remote* path applies to extracted matrices.  (The remote path gives no
shape guarantee: see the counterexample.) -/
theorem c5_matrix_shape :
    (∀ locations : List (Coordinate ℝ),
      (calculateEuclideanMatrices realMF locations).1.length = locations.length ∧
      AllP (fun row => row.length = locations.length)
        (calculateEuclideanMatrices realMF locations).1 ∧
      (∀ i, entryAt (calculateEuclideanMatrices realMF locations).1 i i = 0) ∧
      AllP (AllP (fun x => 0 ≤ x)) (calculateEuclideanMatrices realMF locations).1) ∧
    (∀ m : List (List ℝ), AllP (AllP (fun x => ∃ k : ℤ, x = (k : ℝ)))
      (roundIntMatrix m)) := by
  constructor
  · intro locations
    refine ⟨by simp [calculateEuclideanMatrices], ?_, ?_, ?_⟩
    · rw [allP_iff_mem]
      intro row hrow
      unfold calculateEuclideanMatrices at hrow
      rcases List.mem_map.mp hrow with ⟨i, _, rfl⟩
      simp
    · intro i
      unfold entryAt calculateEuclideanMatrices
      dsimp only
      rw [getD_map_range]
      by_cases h : i < locations.length
      · rw [if_pos h, getD_map_range, if_pos h, if_pos rfl]
      · rw [if_neg h]
        simp
    · rw [allP_iff_mem]
      intro row hrow
      unfold calculateEuclideanMatrices at hrow
      rcases List.mem_map.mp hrow with ⟨i, _, rfl⟩
      rw [allP_iff_mem]
      intro x hx
      rcases List.mem_map.mp hx with ⟨j, _, rfl⟩
      dsimp only
      split
      · exact le_rfl
      · exact haversineDistance_nonneg _ _
  · intro m
    rw [allP_iff_mem]
    intro row hrow
    rcases List.mem_map.mp hrow with ⟨row0, _, rfl⟩
    rw [allP_iff_mem]
    intro x hx
    rcases List.mem_map.mp hx with ⟨x0, _, rfl⟩
    exact ⟨⌊x0 + 1 / 2⌋, rfl⟩

/-- Counterexample to C5 as stated: with three input locations, a
configured key and a remote response carrying 1×1 matrices — which
passes the code's only validation (non-emptiness) — `getDistanceMatrix`
returns a 1×1 distance matrix, so the claimed properties (square with
side 3, among others) fail. -/
theorem c5_counterexample :
    ¬ matrixClaimProps (getDistanceMatrix realMF apiEnvBadMatrix locsThree).1
      locsThree.length := by
  have heval : (getDistanceMatrix realMF apiEnvBadMatrix locsThree).1 =
      roundIntMatrix [[(5 : ℝ)]] := by
    unfold getDistanceMatrix getDistanceMatrixAux
    rw [if_neg (by simp [locsThree])]
    rfl
  intro h
  have hlen := h.1
  rw [heval] at hlen
  simp [roundIntMatrix, locsThree] at hlen

/-- The haversine distance between `(0°, 0°)` and `(0°, 180°)` is
exactly `6371000·π` metres. -/
theorem hav_equator_pi :
    haversineDistance realMF pAntipA pAntipB = 6371000 * Real.pi := by
  unfold haversineDistance pAntipA pAntipB realMF
  dsimp only
  rw [show ((0 : ℝ) - 0) * Real.pi / 180 / 2 = 0 by ring]
  rw [show ((180 : ℝ) - 0) * Real.pi / 180 / 2 = Real.pi / 2 by ring]
  rw [show (0 : ℝ) * Real.pi / 180 = 0 by ring]
  rw [Real.sin_zero, Real.cos_zero, Real.sin_pi_div_two]
  rw [show (0 : ℝ) * 0 + 1 * 1 * (1 * 1) = 1 by ring]
  rw [Real.sqrt_one, show (1 : ℝ) - 1 = 0 by ring, Real.sqrt_zero]
  unfold jsAtan2
  rw [if_neg (lt_irrefl 0), if_pos rfl, if_pos one_pos]
  ring

/-- Counterexample to C6 as stated: for the pair
`(0°,0°), (0°,180°)` the fallback distance entry is `6371000·π`, an
irrational number, hence *not* equal to its own rounding — the code
stores the raw haversine value without `Math.round`. -/
theorem c6_counterexample : ¬ c6ClaimAt [pAntipA, pAntipB] := by
  intro h
  have h01 := (h 0 1 (by norm_num) (by norm_num) (by norm_num)).1
  have hent : entryAt (calculateEuclideanMatrices realMF [pAntipA, pAntipB]).1 0 1 =
      haversineDistance realMF pAntipA pAntipB := by
    rfl
  have hg0 : ([pAntipA, pAntipB].getD 0 ⟨0, 0⟩) = pAntipA := rfl
  have hg1 : ([pAntipA, pAntipB].getD 1 ⟨0, 0⟩) = pAntipB := rfl
  rw [hent, hg0, hg1, hav_equator_pi] at h01
  have hirr : Irrational (6371000 * Real.pi) := by
    have h6 : Irrational ((6371000 : ℕ) * Real.pi) :=
      irrational_pi.nat_mul (by norm_num)
    simpa using h6
  unfold jsRound at h01
  exact hirr.ne_int _ h01

/-- Amended C6: in the local fallback matrices, for distinct indices
the distance entry equals the *exact* (unrounded) haversine distance
and the duration entry equals the *exact* quotient
`distance / (30000/3600)`. -/
theorem c6_exact_fallback_entries {R : Type} [LinearOrderedField R]
    [FloorRing R] (mf : MathFns R) (locations : List (Coordinate R))
    (i j : ℕ) (hi : i < locations.length) (hj : j < locations.length)
    (hij : i ≠ j) :
    entryAt (calculateEuclideanMatrices mf locations).1 i j =
      haversineDistance mf (locations.getD i ⟨0, 0⟩) (locations.getD j ⟨0, 0⟩) ∧
    entryAt (calculateEuclideanMatrices mf locations).2 i j =
      haversineDistance mf (locations.getD i ⟨0, 0⟩) (locations.getD j ⟨0, 0⟩) /
        (30 * 1000 / 3600) := by
  constructor
  · unfold entryAt calculateEuclideanMatrices
    dsimp only
    rw [getD_map_range, if_pos hi, getD_map_range, if_pos hj, if_neg hij]
  · unfold entryAt calculateEuclideanMatrices
    dsimp only
    rw [getD_map_range, if_pos hi, getD_map_range, if_pos hj, if_neg hij]

/-- Witness for the amended C6 at a concrete input. -/
theorem c6_exact_fallback_entries_witness :
    ((0 : ℕ) < locsTwo.length ∧ 1 < locsTwo.length ∧ (0 : ℕ) ≠ 1) ∧
    entryAt (calculateEuclideanMatrices ratMF locsTwo).1 0 1 =
      haversineDistance ratMF (locsTwo.getD 0 ⟨0, 0⟩) (locsTwo.getD 1 ⟨0, 0⟩) ∧
    entryAt (calculateEuclideanMatrices ratMF locsTwo).2 0 1 =
      haversineDistance ratMF (locsTwo.getD 0 ⟨0, 0⟩) (locsTwo.getD 1 ⟨0, 0⟩) /
        (30 * 1000 / 3600) :=
  ⟨⟨by decide, by decide, by decide⟩,
   c6_exact_fallback_entries ratMF locsTwo 0 1 (by decide) (by decide)
     (by decide)⟩

/-! ## Generator loop lemmas -/

theorem genHighRiskLoop_spec {R F : Type} [LinearOrderedField R] [FloorRing R]
    (mf : MathFns R) (inPoly : Coordinate R → F → Bool) (geo : List F)
    (pois : List (Coordinate R)) (sel : ℕ → R) (uAngle uRad : ℕ → ℕ → R)
    (uBattery : ℕ → R) (idBase : String) (org : Origin) (maxRadius : R) :
    ∀ i n out, genHighRiskLoop mf inPoly geo pois sel uAngle uRad uBattery
        idBase org maxRadius i n = some out →
      out.length = n ∧ ∀ s ∈ out, s.state = ScooterState.C ∧ s.origin = org ∧
        ∃ k, ∃ anchor ∈ pois, s.location =
          generateValidPointNearAnchor mf inPoly geo (uAngle k) (uRad k)
            anchor 0 maxRadius := by
  intro i n
  induction n generalizing i with
  | zero =>
    intro out h
    unfold genHighRiskLoop at h
    rw [Option.some_inj] at h
    subst h
    exact ⟨rfl, fun s hs => absurd hs (List.not_mem_nil s)⟩
  | succ n ih =>
    intro out h
    unfold genHighRiskLoop at h
    simp only [Option.bind_eq_bind, Option.bind_eq_some, Option.some_inj] at h
    obtain ⟨poi, hpoi, rest, hrest, hout⟩ := h
    subst hout
    obtain ⟨hlen, hmem⟩ := ih (i + 1) rest hrest
    refine ⟨by simp [hlen], ?_⟩
    intro s hs
    rcases List.mem_cons.mp hs with rfl | hs'
    · exact ⟨rfl, rfl, i, poi, selectAnchor_mem hpoi, rfl⟩
    · exact hmem s hs'

theorem genJitterLocLoop_spec {R F : Type} [LinearOrderedField R] [FloorRing R]
    (mf : MathFns R) (inPoly : Coordinate R → F → Bool) (geo : List F)
    (anchors : List (Coordinate R)) (sel : ℕ → R) (uAngle uRad : ℕ → ℕ → R)
    (minRadius maxRadius : R) :
    ∀ i n out, genJitterLocLoop mf inPoly geo anchors sel uAngle uRad
        minRadius maxRadius i n = some out →
      out.length = n ∧ ∀ loc ∈ out, ∃ k, ∃ anchor ∈ anchors, loc =
        generateValidPointNearAnchor mf inPoly geo (uAngle k) (uRad k)
          anchor minRadius maxRadius := by
  intro i n
  induction n generalizing i with
  | zero =>
    intro out h
    unfold genJitterLocLoop at h
    rw [Option.some_inj] at h
    subst h
    exact ⟨rfl, fun s hs => absurd hs (List.not_mem_nil s)⟩
  | succ n ih =>
    intro out h
    unfold genJitterLocLoop at h
    simp only [Option.bind_eq_bind, Option.bind_eq_some, Option.some_inj] at h
    obtain ⟨anchor, hanchor, rest, hrest, hout⟩ := h
    subst hout
    obtain ⟨hlen, hmem⟩ := ih (i + 1) rest hrest
    refine ⟨by simp [hlen], ?_⟩
    intro loc hloc
    rcases List.mem_cons.mp hloc with rfl | hloc'
    · exact ⟨i, anchor, selectAnchor_mem hanchor, rfl⟩
    · exact hmem loc hloc'

theorem mkLowBatteryScooters_length {R : Type} [LinearOrderedField R]
    [FloorRing R] (uBattery : ℕ → R) :
    ∀ i pairs, (mkLowBatteryScooters uBattery i pairs).length = pairs.length := by
  intro i pairs
  induction pairs generalizing i with
  | nil => rfl
  | cons pr rest ih => simp [mkLowBatteryScooters, ih]

theorem mem_mkLowBatteryScooters {R : Type} [LinearOrderedField R]
    [FloorRing R] {uBattery : ℕ → R} {s : SGScooter R} :
    ∀ {i pairs}, s ∈ mkLowBatteryScooters uBattery i pairs →
      ∃ pr ∈ pairs, s.location = pr.1 ∧ s.state = ScooterState.B ∧
        s.origin = pr.2 := by
  intro i pairs
  induction pairs generalizing i with
  | nil => intro h; cases h
  | cons pr rest ih =>
    intro h
    rcases List.mem_cons.mp h with rfl | h'
    · exact ⟨pr, List.mem_cons_self pr rest, rfl, rfl, rfl⟩
    · obtain ⟨pr', hpr', hs⟩ := ih h'
      exact ⟨pr', List.mem_cons_of_mem pr hpr', hs⟩

theorem mkLowBatteryScooters_countP {R : Type} [LinearOrderedField R]
    [FloorRing R] (uBattery : ℕ → R) (p : SGScooter R → Bool)
    (q : Coordinate R × Origin → Bool)
    (hpq : ∀ (pr : Coordinate R × Origin) (i : ℕ),
      p { id := "S-LB-" ++ toString (i + 1), location := pr.1
          state := ScooterState.B, batteryLevel := ⌊uBattery i * 20⌋
          service_time := 1, score := BATTERY_SWAP_REVENUE
          origin := pr.2 } = q pr) :
    ∀ i pairs, (mkLowBatteryScooters uBattery i pairs).countP p =
      pairs.countP q := by
  intro i pairs
  induction pairs generalizing i with
  | nil => rfl
  | cons pr rest ih =>
    simp only [mkLowBatteryScooters, List.countP_cons, ih (i + 1), hpq pr i]

theorem reassignIds_length {R : Type} :
    ∀ (i : ℕ) (l : List (SGScooter R)), (reassignIds i l).length = l.length := by
  intro i l
  induction l generalizing i with
  | nil => rfl
  | cons s rest ih => simp [reassignIds, ih]

theorem mem_reassignIds {R : Type} {s : SGScooter R} :
    ∀ {i : ℕ} {l : List (SGScooter R)}, s ∈ reassignIds i l →
      ∃ t ∈ l, s.location = t.location ∧ s.state = t.state ∧
        s.origin = t.origin := by
  intro i l
  induction l generalizing i with
  | nil => intro h; cases h
  | cons t rest ih =>
    intro h
    rcases List.mem_cons.mp h with rfl | h'
    · exact ⟨t, List.mem_cons_self t rest, rfl, rfl, rfl⟩
    · obtain ⟨t', ht', hs⟩ := ih h'
      exact ⟨t', List.mem_cons_of_mem t ht', hs⟩

theorem reassignIds_countP {R : Type} (p : SGScooter R → Bool)
    (hp : ∀ (s : SGScooter R) (id0 : String), p { s with id := id0 } = p s) :
    ∀ (i : ℕ) (l : List (SGScooter R)),
      (reassignIds i l).countP p = l.countP p := by
  intro i l
  induction l generalizing i with
  | nil => rfl
  | cons s rest ih =>
    simp only [reassignIds, List.countP_cons, ih (i + 1), hp s]

theorem shuffleScooters_perm {R : Type}
    (cmp : SGScooter R → SGScooter R → Bool) (l : List (SGScooter R)) :
    (shuffleScooters cmp l).Perm l :=
  List.perm_insertionSort _ l

theorem countNearSubway_add_bus (N : ℕ) :
    countNearSubway N + countNearBusStop N = countHighRisk N := by
  unfold countNearSubway
  apply Nat.sub_add_cancel
  unfold countNearBusStop
  have h0 : (0 : ℚ) ≤ (countHighRisk N : ℚ) := Nat.cast_nonneg _
  have h1 : ((countHighRisk N : ℚ) * (25 / 100)) ≤ (countHighRisk N : ℚ) := by
    nlinarith
  have h2 : (⌊(countHighRisk N : ℚ) * (25 / 100)⌋ : ℤ) ≤
      ⌊(countHighRisk N : ℚ)⌋ := Int.floor_le_floor h1
  have h3 : (⌊(countHighRisk N : ℚ)⌋ : ℤ) = countHighRisk N :=
    Int.floor_natCast _
  omega

theorem gvpna_boundary {R F : Type} [LinearOrderedField R]
    (mf : MathFns R) (inPoly : Coordinate R → F → Bool) (geo : List F)
    (uAngle uRad : ℕ → R) (anchor : Coordinate R) (minRadius maxRadius : R) :
    isPointInDistricts inPoly
      (generateValidPointNearAnchor mf inPoly geo uAngle uRad anchor
        minRadius maxRadius) geo = true ∨
    generateValidPointNearAnchor mf inPoly geo uAngle uRad anchor
      minRadius maxRadius = anchor := by
  unfold generateValidPointNearAnchor
  suffices h : ∀ rem att, isPointInDistricts inPoly
      (generateValidPointNearAnchorGo mf inPoly geo uAngle uRad anchor
        minRadius maxRadius att rem) geo = true ∨
      generateValidPointNearAnchorGo mf inPoly geo uAngle uRad anchor
        minRadius maxRadius att rem = anchor from h 10 0
  intro rem
  induction rem with
  | zero => intro att; right; rfl
  | succ rem ih =>
    intro att
    unfold generateValidPointNearAnchorGo
    by_cases hc : isPointInDistricts inPoly
        (generatePointNearLocation mf (uAngle att) (uRad att) anchor
          minRadius maxRadius) geo = true
    · rw [if_pos hc]
      exact Or.inl hc
    · rw [if_neg hc]
      exact ih (att + 1)

theorem mem_subwayExitPOIs_inBounds {R F : Type} {env : GenEnv R F}
    {a : Coordinate R} (h : a ∈ subwayExitPOIs env) :
    isPointInDistricts env.inPoly a env.boundaries = true := by
  unfold subwayExitPOIs validPOIs at h
  rcases List.mem_map.mp h with ⟨poi, hpoi, rfl⟩
  exact (List.mem_filter.mp (List.mem_filter.mp hpoi).1).2

theorem mem_busStopPOIs_inBounds {R F : Type} {env : GenEnv R F}
    {a : Coordinate R} (h : a ∈ busStopPOIs env) :
    isPointInDistricts env.inPoly a env.boundaries = true := by
  unfold busStopPOIs validPOIs at h
  rcases List.mem_map.mp h with ⟨poi, hpoi, rfl⟩
  exact (List.mem_filter.mp (List.mem_filter.mp hpoi).1).2

/-- Inversion of a successful `generateScenario` run into its stages. -/
theorem generateScenario_inv {R F : Type} [LinearOrderedField R] [FloorRing R]
    (mf : MathFns R) (env : GenEnv R F) (count : ℕ) {out : List (SGScooter R)}
    (h : generateScenario mf env count = some out) :
    ∃ hrSub hrBus commercialLocations residentialLocations,
      genHighRiskLoop mf env.inPoly env.boundaries (subwayExitPOIs env)
        env.subwaySel env.subwayAngle env.subwayRad env.subwayBattery
        "S-HR-SUB-" Origin.subway ((RED_ZONE_RADIUS_METERS : ℚ) : R) 0
        (countNearSubway count) = some hrSub ∧
      genHighRiskLoop mf env.inPoly env.boundaries (busStopPOIs env)
        env.busSel env.busAngle env.busRad env.busBattery
        "S-HR-BUS-" Origin.bus ((RED_ZONE_RADIUS_METERS : ℚ) : R) 0
        (countNearBusStop count) = some hrBus ∧
      genJitterLocLoop mf env.inPoly env.boundaries
        (env.commercialAnchors.filter
          (fun a => isPointInDistricts env.inPoly a env.boundaries))
        env.commSel env.commAngle env.commRad 15 30 0
        (countCommercial count) = some commercialLocations ∧
      genJitterLocLoop mf env.inPoly env.boundaries
        (env.residentialAnchors.filter
          (fun a => isPointInDistricts env.inPoly a env.boundaries))
        env.resSel env.resAngle env.resRad 20 40 0
        (countResidential count) = some residentialLocations ∧
      out = reassignIds 0 (shuffleScooters env.shuffleCmp
        ((hrSub ++ hrBus) ++ mkLowBatteryScooters env.lbBattery 0
          (commercialLocations.map (fun l => (l, Origin.commercial)) ++
           residentialLocations.map (fun l => (l, Origin.residential))))) := by
  unfold generateScenario at h
  simp only [Option.bind_eq_bind, Option.bind_eq_some, Option.some_inj] at h
  obtain ⟨hrSub, h1, hrBus, h2, cl, h3, rl, h4, h5⟩ := h
  exact ⟨hrSub, hrBus, cl, rl, h1, h2, h3, h4, h5.symm⟩

/-- C1: for every population size `N` in `[10, 200]`, a successful
`generateScenario` run emits exactly `max(1, floor(N·0.15))` high-risk
entities, exactly `floor(N·0.65)` commercial low-battery entities and
exactly `floor(N·0.20)` residential low-battery entities, and nothing
else — the remainder up to `N` is absent from the returned list. -/
theorem c1_category_counts {R F : Type} [LinearOrderedField R] [FloorRing R]
    (mf : MathFns R) (env : GenEnv R F) (N : ℕ)
    (h10 : 10 ≤ N) (h200 : N ≤ 200) :
    OptF (fun out =>
      countStateC out = countHighRisk N ∧
      countOrigin Origin.commercial out = countCommercial N ∧
      countOrigin Origin.residential out = countResidential N ∧
      out.length = countHighRisk N + countCommercial N + countResidential N)
      (generateScenario mf env N) := by
  cases hgen : generateScenario mf env N with
  | none => trivial
  | some out =>
    obtain ⟨hrSub, hrBus, cl, rl, h1, h2, h3, h4, h5⟩ :=
      generateScenario_inv mf env N hgen
    obtain ⟨hlen1, hmem1⟩ := genHighRiskLoop_spec _ _ _ _ _ _ _ _ _ _ _ 0 _ _ h1
    obtain ⟨hlen2, hmem2⟩ := genHighRiskLoop_spec _ _ _ _ _ _ _ _ _ _ _ 0 _ _ h2
    obtain ⟨hlen3, _⟩ := genJitterLocLoop_spec _ _ _ _ _ _ _ _ _ 0 _ _ h3
    obtain ⟨hlen4, _⟩ := genJitterLocLoop_spec _ _ _ _ _ _ _ _ _ 0 _ _ h4
    subst h5
    show _ ∧ _ ∧ _ ∧ _
    have hidStateC : ∀ (s : SGScooter R) (id0 : String),
        (fun s => decide (s.state = ScooterState.C)) { s with id := id0 } =
        (fun s => decide (s.state = ScooterState.C)) s := fun _ _ => rfl
    have hidOrigin : ∀ (o : Origin) (s : SGScooter R) (id0 : String),
        (fun s => decide (s.origin = o)) { s with id := id0 } =
        (fun s => decide (s.origin = o)) s := fun _ _ _ => rfl
    have hcountC : countStateC (reassignIds 0 (shuffleScooters env.shuffleCmp
        ((hrSub ++ hrBus) ++ mkLowBatteryScooters env.lbBattery 0
          (cl.map (fun l => (l, Origin.commercial)) ++
           rl.map (fun l => (l, Origin.residential)))))) = countHighRisk N := by
      unfold countStateC
      rw [reassignIds_countP _ (hidStateC),
        (shuffleScooters_perm _ _).countP_eq,
        List.countP_append, List.countP_append]
      have e1 : hrSub.countP (fun s => decide (s.state = ScooterState.C)) =
          countNearSubway N := by
        rw [List.countP_eq_length.mpr (fun a ha => by
          simp [(hmem1 a ha).1])]
        exact hlen1
      have e2 : hrBus.countP (fun s => decide (s.state = ScooterState.C)) =
          countNearBusStop N := by
        rw [List.countP_eq_length.mpr (fun a ha => by
          simp [(hmem2 a ha).1])]
        exact hlen2
      have e3 : (mkLowBatteryScooters env.lbBattery 0
          (cl.map (fun l => (l, Origin.commercial)) ++
           rl.map (fun l => (l, Origin.residential)))).countP
          (fun s => decide (s.state = ScooterState.C)) = 0 := by
        rw [List.countP_eq_zero.mpr]
        intro a ha
        obtain ⟨pr, _, _, hstate, _⟩ := mem_mkLowBatteryScooters ha
        simp [hstate]
      rw [e1, e2, e3, countNearSubway_add_bus]
      omega
    have hcountO : ∀ o : Origin,
        countOrigin o (reassignIds 0 (shuffleScooters env.shuffleCmp
          ((hrSub ++ hrBus) ++ mkLowBatteryScooters env.lbBattery 0
            (cl.map (fun l => (l, Origin.commercial)) ++
             rl.map (fun l => (l, Origin.residential)))))) =
          (if Origin.subway = o then hrSub.length else 0) +
          (if Origin.bus = o then hrBus.length else 0) +
          ((if Origin.commercial = o then cl.length else 0) +
           (if Origin.residential = o then rl.length else 0)) := by
      intro o
      unfold countOrigin
      rw [reassignIds_countP _ (hidOrigin o),
        (shuffleScooters_perm _ _).countP_eq,
        List.countP_append, List.countP_append]
      have e1 : hrSub.countP (fun s => decide (s.origin = o)) =
          if Origin.subway = o then hrSub.length else 0 := by
        split
        · rename_i ho
          rw [List.countP_eq_length.mpr]
          intro a ha
          simp [(hmem1 a ha).2.1, ho]
        · rename_i ho
          rw [List.countP_eq_zero.mpr]
          intro a ha
          simp only [(hmem1 a ha).2.1]
          simp [fun h => ho h]
      have e2 : hrBus.countP (fun s => decide (s.origin = o)) =
          if Origin.bus = o then hrBus.length else 0 := by
        split
        · rename_i ho
          rw [List.countP_eq_length.mpr]
          intro a ha
          simp [(hmem2 a ha).2.1, ho]
        · rename_i ho
          rw [List.countP_eq_zero.mpr]
          intro a ha
          simp only [(hmem2 a ha).2.1]
          simp [fun h => ho h]
      have e3 : (mkLowBatteryScooters env.lbBattery 0
          (cl.map (fun l => (l, Origin.commercial)) ++
           rl.map (fun l => (l, Origin.residential)))).countP
          (fun s => decide (s.origin = o)) =
          (if Origin.commercial = o then cl.length else 0) +
          (if Origin.residential = o then rl.length else 0) := by
        rw [mkLowBatteryScooters_countP env.lbBattery _
          (fun pr => decide (pr.2 = o)) (fun _ _ => rfl),
          List.countP_append, List.countP_map, List.countP_map]
        congr 1
        · split
          · rename_i ho
            rw [List.countP_eq_length.mpr (fun a _ => by simp [Function.comp, ho])]
          · rename_i ho
            rw [List.countP_eq_zero.mpr (fun a _ => by
              simp [Function.comp]
              exact fun h => ho h)]
        · split
          · rename_i ho
            rw [List.countP_eq_length.mpr (fun a _ => by simp [Function.comp, ho])]
          · rename_i ho
            rw [List.countP_eq_zero.mpr (fun a _ => by
              simp [Function.comp]
              exact fun h => ho h)]
      rw [e1, e2, e3]
    refine ⟨hcountC, ?_, ?_, ?_⟩
    · rw [hcountO Origin.commercial]
      simp [hlen3]
    · rw [hcountO Origin.residential]
      simp [hlen4]
    · rw [reassignIds_length, (shuffleScooters_perm _ _).length_eq]
      simp only [List.length_append, mkLowBatteryScooters_length,
        List.length_map]
      rw [hlen1, hlen2, hlen3, hlen4]
      have := countNearSubway_add_bus N
      omega

/-! ## C2: boundary containment -/

/-- C2: every entity a (successful) `generateScenario` run emits lies
inside the district boundary set, under the same point-in-polygon test
that filtered the anchors: jittered candidates are accepted only after
passing `isPointInDistricts`, and the retry-exhaustion fallback returns
the anchor itself, which was pre-filtered. -/
theorem c2_boundary_containment {R F : Type} [LinearOrderedField R]
    [FloorRing R] (mf : MathFns R) (env : GenEnv R F) (count : ℕ) :
    OptF (AllP (fun s =>
        isPointInDistricts env.inPoly s.location env.boundaries = true))
      (generateScenario mf env count) := by
  cases hgen : generateScenario mf env count with
  | none => trivial
  | some out =>
    obtain ⟨hrSub, hrBus, cl, rl, h1, h2, h3, h4, h5⟩ :=
      generateScenario_inv mf env count hgen
    obtain ⟨_, hmem1⟩ := genHighRiskLoop_spec _ _ _ _ _ _ _ _ _ _ _ 0 _ _ h1
    obtain ⟨_, hmem2⟩ := genHighRiskLoop_spec _ _ _ _ _ _ _ _ _ _ _ 0 _ _ h2
    obtain ⟨_, hmem3⟩ := genJitterLocLoop_spec _ _ _ _ _ _ _ _ _ 0 _ _ h3
    obtain ⟨_, hmem4⟩ := genJitterLocLoop_spec _ _ _ _ _ _ _ _ _ 0 _ _ h4
    subst h5
    show AllP _ _
    rw [allP_iff_mem]
    intro s hs
    obtain ⟨t, ht, hloc, _, _⟩ := mem_reassignIds hs
    rw [hloc]
    have ht' := (shuffleScooters_perm env.shuffleCmp _).mem_iff.mp ht
    rcases List.mem_append.mp ht' with hhr | hlb
    · rcases List.mem_append.mp hhr with hsub | hbus
      · obtain ⟨_, _, k, anchor, hanchor, hl⟩ := hmem1 t hsub
        rw [hl]
        rcases gvpna_boundary mf env.inPoly env.boundaries
            (env.subwayAngle k) (env.subwayRad k) anchor 0 _ with hg | hg
        · exact hg
        · rw [hg]
          exact mem_subwayExitPOIs_inBounds hanchor
      · obtain ⟨_, _, k, anchor, hanchor, hl⟩ := hmem2 t hbus
        rw [hl]
        rcases gvpna_boundary mf env.inPoly env.boundaries
            (env.busAngle k) (env.busRad k) anchor 0 _ with hg | hg
        · exact hg
        · rw [hg]
          exact mem_busStopPOIs_inBounds hanchor
    · obtain ⟨pr, hpr, hlocpr, _, _⟩ := mem_mkLowBatteryScooters hlb
      rw [hlocpr]
      rcases List.mem_append.mp hpr with hc | hr
      · rcases List.mem_map.mp hc with ⟨loc, hlocmem, rfl⟩
        obtain ⟨k, anchor, hanchor, hl⟩ := hmem3 loc hlocmem
        rw [hl]
        rcases gvpna_boundary mf env.inPoly env.boundaries
            (env.commAngle k) (env.commRad k) anchor 15 30 with hg | hg
        · exact hg
        · rw [hg]
          exact (List.mem_filter.mp hanchor).2
      · rcases List.mem_map.mp hr with ⟨loc, hlocmem, rfl⟩
        obtain ⟨k, anchor, hanchor, hl⟩ := hmem4 loc hlocmem
        rw [hl]
        rcases gvpna_boundary mf env.inPoly env.boundaries
            (env.resAngle k) (env.resRad k) anchor 20 40 with hg | hg
        · exact hg
        · rw [hg]
          exact (List.mem_filter.mp hanchor).2

/-! ## C9: empty anchor set crashes the generator -/

theorem genHighRiskLoop_nil {R F : Type} [LinearOrderedField R] [FloorRing R]
    (mf : MathFns R) (inPoly : Coordinate R → F → Bool) (geo : List F)
    (sel : ℕ → R) (uAngle uRad : ℕ → ℕ → R) (uBattery : ℕ → R)
    (idBase : String) (org : Origin) (maxRadius : R) (i n : ℕ) :
    genHighRiskLoop mf inPoly geo [] sel uAngle uRad uBattery idBase org
      maxRadius i (n + 1) = none := by
  unfold genHighRiskLoop
  rw [show selectAnchor (sel i) ([] : List (Coordinate R)) = none from
    jsIndex_nil _]
  rfl

/-- C9 evaluation: with the red-zone POI query returning an empty set
(a valid, non-error response of the anchor layer) and `N = 10`, the
generator body indexes into the empty subway-anchor array — `undefined`
— and the subsequent `.lat` access throws: the run produces no
population at all instead of falling back. -/
theorem c9_empty_anchor_crash : generateScenario ratMF env9 10 = none := by
  have hsub : countNearSubway 10 = 1 := by
    norm_num [countNearSubway, countHighRisk, countNearBusStop,
      HIGH_RISK_PERCENTAGE]
  have hpois : subwayExitPOIs env9 = [] := rfl
  unfold generateScenario
  dsimp only
  rw [hpois, hsub]
  rw [genHighRiskLoop_nil ratMF env9.inPoly env9.boundaries env9.subwaySel
    env9.subwayAngle env9.subwayRad env9.subwayBattery "S-HR-SUB-"
    Origin.subway _ 0 0]
  rfl

/-! ## Witness infrastructure: successful runs of the generator -/

theorem selectAnchor_zero {R : Type} [LinearOrderedField R] [FloorRing R]
    {pois : List (Coordinate R)} (h : pois ≠ []) :
    ∃ a, selectAnchor (0 : R) pois = some a := by
  unfold selectAnchor jsIndex
  have hl : 0 < pois.length := List.length_pos.mpr h
  rw [show ⌊(0 : R) * (pois.length : R)⌋ = 0 by simp]
  rw [dif_pos ⟨le_refl 0, by simpa using hl⟩]
  exact ⟨_, rfl⟩

theorem genHighRiskLoop_isSome {R F : Type} [LinearOrderedField R]
    [FloorRing R] (mf : MathFns R) (inPoly : Coordinate R → F → Bool)
    (geo : List F) (pois : List (Coordinate R)) (sel : ℕ → R)
    (uAngle uRad : ℕ → ℕ → R) (uBattery : ℕ → R) (idBase : String)
    (org : Origin) (maxRadius : R) (hsel : ∀ i, sel i = 0) :
    ∀ i n, pois ≠ [] ∨ n = 0 →
      (genHighRiskLoop mf inPoly geo pois sel uAngle uRad uBattery idBase
        org maxRadius i n).isSome := by
  intro i n
  induction n generalizing i with
  | zero => intro _; rfl
  | succ n ih =>
    intro h
    rcases h with hne | h0
    · unfold genHighRiskLoop
      rw [hsel i]
      obtain ⟨a, ha⟩ := selectAnchor_zero hne
      rw [ha]
      simp only [Option.bind_eq_bind, Option.some_bind]
      obtain ⟨rest, hrest⟩ := Option.isSome_iff_exists.mp (ih (i + 1) (Or.inl hne))
      rw [hrest]
      rfl
    · exact absurd h0 (Nat.succ_ne_zero n)

theorem genJitterLocLoop_isSome {R F : Type} [LinearOrderedField R]
    [FloorRing R] (mf : MathFns R) (inPoly : Coordinate R → F → Bool)
    (geo : List F) (anchors : List (Coordinate R)) (sel : ℕ → R)
    (uAngle uRad : ℕ → ℕ → R) (minRadius maxRadius : R)
    (hsel : ∀ i, sel i = 0) :
    ∀ i n, anchors ≠ [] ∨ n = 0 →
      (genJitterLocLoop mf inPoly geo anchors sel uAngle uRad minRadius
        maxRadius i n).isSome := by
  intro i n
  induction n generalizing i with
  | zero => intro _; rfl
  | succ n ih =>
    intro h
    rcases h with hne | h0
    · unfold genJitterLocLoop
      rw [hsel i]
      obtain ⟨a, ha⟩ := selectAnchor_zero hne
      rw [ha]
      simp only [Option.bind_eq_bind, Option.some_bind]
      obtain ⟨rest, hrest⟩ := Option.isSome_iff_exists.mp (ih (i + 1) (Or.inl hne))
      rw [hrest]
      rfl
    · exact absurd h0 (Nat.succ_ne_zero n)

theorem gen_env1_isSome : (generateScenario ratMF env1 10).isSome = true := by
  have hbcount : countNearBusStop 10 = 0 := by
    norm_num [countNearBusStop, countHighRisk, HIGH_RISK_PERCENTAGE]
  unfold generateScenario
  dsimp only
  obtain ⟨lsub, hlsub⟩ := Option.isSome_iff_exists.mp
    (genHighRiskLoop_isSome ratMF env1.inPoly env1.boundaries
      (subwayExitPOIs env1) env1.subwaySel env1.subwayAngle env1.subwayRad
      env1.subwayBattery "S-HR-SUB-" Origin.subway _ (fun i => rfl) 0
      (countNearSubway 10) (Or.inl (by decide)))
  rw [hlsub]
  simp only [Option.bind_eq_bind, Option.some_bind]
  obtain ⟨lbus, hlbus⟩ := Option.isSome_iff_exists.mp
    (genHighRiskLoop_isSome ratMF env1.inPoly env1.boundaries
      (busStopPOIs env1) env1.busSel env1.busAngle env1.busRad
      env1.busBattery "S-HR-BUS-" Origin.bus _ (fun i => rfl) 0
      (countNearBusStop 10) (Or.inr hbcount))
  rw [hlbus]
  simp only [Option.some_bind]
  obtain ⟨lcom, hlcom⟩ := Option.isSome_iff_exists.mp
    (genJitterLocLoop_isSome ratMF env1.inPoly env1.boundaries
      (env1.commercialAnchors.filter
        (fun a => isPointInDistricts env1.inPoly a env1.boundaries))
      env1.commSel env1.commAngle env1.commRad 15 30 (fun i => rfl) 0
      (countCommercial 10) (Or.inl (by decide)))
  rw [hlcom]
  simp only [Option.some_bind]
  obtain ⟨lres, hlres⟩ := Option.isSome_iff_exists.mp
    (genJitterLocLoop_isSome ratMF env1.inPoly env1.boundaries
      (env1.residentialAnchors.filter
        (fun a => isPointInDistricts env1.inPoly a env1.boundaries))
      env1.resSel env1.resAngle env1.resRad 20 40 (fun i => rfl) 0
      (countResidential 10) (Or.inl (by decide)))
  rw [hlres]
  simp only [Option.some_bind]
  rfl

/-- Witness for C1: a concrete successful run at `N = 10`. -/
theorem c1_category_counts_witness :
    (10 ≤ 10 ∧ 10 ≤ 200) ∧ (generateScenario ratMF env1 10).isSome = true ∧
    OptF (fun out =>
      countStateC out = countHighRisk 10 ∧
      countOrigin Origin.commercial out = countCommercial 10 ∧
      countOrigin Origin.residential out = countResidential 10 ∧
      out.length = countHighRisk 10 + countCommercial 10 + countResidential 10)
      (generateScenario ratMF env1 10) :=
  ⟨⟨by norm_num, by norm_num⟩, gen_env1_isSome,
   c1_category_counts ratMF env1 10 (by norm_num) (by norm_num)⟩

/-! ## C3: jitter radius of high-risk entities -/

theorem gvpna_cases {R F : Type} [LinearOrderedField R]
    (mf : MathFns R) (inPoly : Coordinate R → F → Bool) (geo : List F)
    (uAngle uRad : ℕ → R) (anchor : Coordinate R) (minRadius maxRadius : R) :
    (∃ k, generateValidPointNearAnchor mf inPoly geo uAngle uRad anchor
        minRadius maxRadius =
      generatePointNearLocation mf (uAngle k) (uRad k) anchor minRadius
        maxRadius) ∨
    generateValidPointNearAnchor mf inPoly geo uAngle uRad anchor minRadius
      maxRadius = anchor := by
  unfold generateValidPointNearAnchor
  suffices h : ∀ rem att, (∃ k, generateValidPointNearAnchorGo mf inPoly geo
      uAngle uRad anchor minRadius maxRadius att rem =
      generatePointNearLocation mf (uAngle k) (uRad k) anchor minRadius
        maxRadius) ∨
      generateValidPointNearAnchorGo mf inPoly geo uAngle uRad anchor
        minRadius maxRadius att rem = anchor from h 10 0
  intro rem
  induction rem with
  | zero => intro att; right; rfl
  | succ rem ih =>
    intro att
    unfold generateValidPointNearAnchorGo
    by_cases hc : isPointInDistricts inPoly
        (generatePointNearLocation mf (uAngle att) (uRad att) anchor
          minRadius maxRadius) geo = true
    · rw [if_pos hc]
      exact Or.inl ⟨att, rfl⟩
    · rw [if_neg hc]
      exact ih (att + 1)

theorem gpnl_planar (u1 u2 : ℝ) (anchor : Coordinate ℝ) (maxRadius : ℝ)
    (hu2 : 0 ≤ u2) :
    planarOffsetSq anchor
      (generatePointNearLocation realMF u1 u2 anchor 0 maxRadius) =
      u2 * (maxRadius * maxRadius - 0 * 0) + 0 * 0 := by
  unfold planarOffsetSq generatePointNearLocation realMF
  dsimp only
  generalize hA : u2 * (maxRadius * maxRadius - 0 * 0) + 0 * 0 = A
  generalize hθ : u1 * 2 * Real.pi = θ
  have h1 : (111000 : ℝ) * (anchor.lat + Real.sqrt A * Real.cos θ / 111000 -
      anchor.lat) = Real.sqrt A * Real.cos θ := by ring
  have h2 : (88000 : ℝ) * (anchor.lng + Real.sqrt A * Real.sin θ / 88000 -
      anchor.lng) = Real.sqrt A * Real.sin θ := by ring
  rw [h1, h2]
  have hA0 : (0 : ℝ) ≤ A := by
    rw [← hA]
    nlinarith [mul_self_nonneg maxRadius]
  have h3 : (Real.sqrt A * Real.cos θ) ^ 2 + (Real.sqrt A * Real.sin θ) ^ 2 =
      A * (Real.sin θ ^ 2 + Real.cos θ ^ 2) := by
    rw [mul_pow, mul_pow, Real.sq_sqrt hA0]
    ring
  rw [h3, Real.sin_sq_add_cos_sq, mul_one]

theorem rz_cast_eq : ((RED_ZONE_RADIUS_METERS : ℚ) : ℝ) = 20 := by
  norm_num [RED_ZONE_RADIUS_METERS]

theorem gvpna_planar_lt {F : Type} (inPoly : Coordinate ℝ → F → Bool)
    (geo : List F) (uAngle uRad : ℕ → ℝ) (anchor : Coordinate ℝ)
    (hu : ∀ k, 0 ≤ uRad k ∧ uRad k < 1) :
    planarOffsetSq anchor
      (generateValidPointNearAnchor realMF inPoly geo uAngle uRad anchor 0
        ((RED_ZONE_RADIUS_METERS : ℚ) : ℝ)) < 400 := by
  rcases gvpna_cases realMF inPoly geo uAngle uRad anchor 0
      ((RED_ZONE_RADIUS_METERS : ℚ) : ℝ) with ⟨k, hk⟩ | hk
  · rw [hk, gpnl_planar _ _ _ _ (hu k).1, rz_cast_eq]
    nlinarith [(hu k).1, (hu k).2]
  · rw [hk]
    unfold planarOffsetSq
    norm_num

theorem gvpnaGo_accept {R F : Type} [LinearOrderedField R]
    (mf : MathFns R) (inPoly : Coordinate R → F → Bool) (geo : List F)
    (uAngle uRad : ℕ → R) (anchor : Coordinate R)
    (minRadius maxRadius : R) (att rem : ℕ)
    (hacc : isPointInDistricts inPoly
      (generatePointNearLocation mf (uAngle att) (uRad att) anchor minRadius
        maxRadius) geo = true) :
    generateValidPointNearAnchorGo mf inPoly geo uAngle uRad anchor minRadius
      maxRadius att (rem + 1) =
    generatePointNearLocation mf (uAngle att) (uRad att) anchor minRadius
      maxRadius := by
  unfold generateValidPointNearAnchorGo
  rw [if_pos hacc]

theorem gpnl_env3_eval :
    generatePointNearLocation realMF 0 ((361 : ℝ) / 400) ⟨(37.5 : ℝ), 127⟩ 0
      ((RED_ZONE_RADIUS_METERS : ℚ) : ℝ) =
    ⟨(37.5 : ℝ) + 19 / 111000, 127⟩ := by
  unfold generatePointNearLocation realMF
  dsimp only
  rw [rz_cast_eq]
  have h361 : Real.sqrt ((361 : ℝ) / 400 * (20 * 20 - 0 * 0) + 0 * 0) = 19 := by
    rw [show (361 : ℝ) / 400 * (20 * 20 - 0 * 0) + 0 * 0 = 19 ^ 2 by norm_num]
    exact Real.sqrt_sq (by norm_num)
  rw [show (0 : ℝ) * 2 * Real.pi = 0 by ring, h361, Real.cos_zero,
    Real.sin_zero]
  simp only [Coordinate.mk.injEq]
  constructor
  · ring
  · ring

theorem gvpna_env3_eval (k : ℕ) :
    generateValidPointNearAnchor realMF env3.inPoly env3.boundaries
      (env3.subwayAngle k) (env3.subwayRad k) ⟨(37.5 : ℝ), 127⟩ 0
      ((RED_ZONE_RADIUS_METERS : ℚ) : ℝ) =
    ⟨(37.5 : ℝ) + 19 / 111000, 127⟩ := by
  have hval : generateValidPointNearAnchor realMF env3.inPoly env3.boundaries
      (env3.subwayAngle k) (env3.subwayRad k) ⟨(37.5 : ℝ), 127⟩ 0
      ((RED_ZONE_RADIUS_METERS : ℚ) : ℝ) =
      generatePointNearLocation realMF (env3.subwayAngle k 0)
        (env3.subwayRad k 0) ⟨(37.5 : ℝ), 127⟩ 0
        ((RED_ZONE_RADIUS_METERS : ℚ) : ℝ) :=
    gvpnaGo_accept realMF env3.inPoly env3.boundaries (env3.subwayAngle k)
      (env3.subwayRad k) ⟨(37.5 : ℝ), 127⟩ 0 _ 0 9 rfl
  rw [hval]
  exact gpnl_env3_eval

theorem hav_env3_gt_five :
    5 < haversineDistance realMF ⟨(37.5 : ℝ) + 19 / 111000, 127⟩
      ⟨(37.5 : ℝ), 127⟩ := by
  unfold haversineDistance realMF
  dsimp only
  rw [show ((127 : ℝ) - 127) * Real.pi / 180 / 2 = 0 by ring, Real.sin_zero]
  simp only [mul_zero, add_zero]
  rw [show ((37.5 : ℝ) - (37.5 + 19 / 111000)) * Real.pi / 180 / 2 =
    -(19 * Real.pi / 39960000) by ring]
  rw [Real.sin_neg, neg_mul_neg]
  set x : ℝ := 19 * Real.pi / 39960000 with hx
  have hx0 : 0 ≤ x := by rw [hx]; positivity
  have hxpi : x ≤ Real.pi := by rw [hx]; nlinarith [Real.pi_pos]
  have hxlt : x < Real.pi / 2 := by rw [hx]; nlinarith [Real.pi_pos]
  have hxneg : -(Real.pi / 2) < x := by rw [hx]; nlinarith [Real.pi_pos]
  have hsin0 : 0 ≤ Real.sin x := Real.sin_nonneg_of_nonneg_of_le_pi hx0 hxpi
  have hcos0 : 0 < Real.cos x := Real.cos_pos_of_mem_Ioo ⟨hxneg, hxlt⟩
  rw [show Real.sin x * Real.sin x = Real.sin x ^ 2 by ring,
    Real.sqrt_sq hsin0]
  rw [show (1 : ℝ) - Real.sin x ^ 2 = Real.cos x ^ 2 by
    nlinarith [Real.sin_sq_add_cos_sq x], Real.sqrt_sq hcos0.le]
  rw [show jsAtan2 (Real.sin x) (Real.cos x) = x by
    unfold jsAtan2
    rw [if_pos hcos0, ← Real.tan_eq_sin_div_cos, Real.arctan_tan hxneg hxlt]]
  rw [hx]
  nlinarith [Real.pi_gt_three]

theorem env3_count_bus : countNearBusStop 1 = 0 := by
  norm_num [countNearBusStop, countHighRisk, HIGH_RISK_PERCENTAGE]

theorem env3_count_subway : countNearSubway 1 = 1 := by
  norm_num [countNearSubway, countNearBusStop, countHighRisk,
    HIGH_RISK_PERCENTAGE]

theorem env3_count_commercial : countCommercial 1 = 0 := by
  norm_num [countCommercial, COMMERCIAL_PERCENTAGE]

theorem env3_count_residential : countResidential 1 = 0 := by
  norm_num [countResidential, RESIDENTIAL_PERCENTAGE]

theorem gen_env3_isSome : (generateScenario realMF env3 1).isSome = true := by
  unfold generateScenario
  dsimp only
  obtain ⟨lsub, hlsub⟩ := Option.isSome_iff_exists.mp
    (genHighRiskLoop_isSome realMF env3.inPoly env3.boundaries
      (subwayExitPOIs env3) env3.subwaySel env3.subwayAngle env3.subwayRad
      env3.subwayBattery "S-HR-SUB-" Origin.subway _ (fun i => rfl) 0
      (countNearSubway 1)
      (Or.inl (by
        rw [show subwayExitPOIs env3 = [⟨(37.5 : ℝ), 127⟩] from rfl]
        exact List.cons_ne_nil _ _)))
  rw [hlsub]
  simp only [Option.bind_eq_bind, Option.some_bind]
  obtain ⟨lbus, hlbus⟩ := Option.isSome_iff_exists.mp
    (genHighRiskLoop_isSome realMF env3.inPoly env3.boundaries
      (busStopPOIs env3) env3.busSel env3.busAngle env3.busRad
      env3.busBattery "S-HR-BUS-" Origin.bus _ (fun i => rfl) 0
      (countNearBusStop 1) (Or.inr env3_count_bus))
  rw [hlbus]
  simp only [Option.some_bind]
  obtain ⟨lcom, hlcom⟩ := Option.isSome_iff_exists.mp
    (genJitterLocLoop_isSome realMF env3.inPoly env3.boundaries
      (env3.commercialAnchors.filter
        (fun a => isPointInDistricts env3.inPoly a env3.boundaries))
      env3.commSel env3.commAngle env3.commRad 15 30 (fun i => rfl) 0
      (countCommercial 1) (Or.inr env3_count_commercial))
  rw [hlcom]
  simp only [Option.some_bind]
  obtain ⟨lres, hlres⟩ := Option.isSome_iff_exists.mp
    (genJitterLocLoop_isSome realMF env3.inPoly env3.boundaries
      (env3.residentialAnchors.filter
        (fun a => isPointInDistricts env3.inPoly a env3.boundaries))
      env3.resSel env3.resAngle env3.resRad 20 40 (fun i => rfl) 0
      (countResidential 1) (Or.inr env3_count_residential))
  rw [hlres]
  simp only [Option.some_bind]
  rfl

/-- Counterexample to C3 as stated: in the environment `env3` (a single
subway-exit anchor, an always-true containment test, and a jitter draw
of radius 19 m — legal under the code's `RED_ZONE_RADIUS_METERS = 20`
band) the generator emits a high-risk entity whose great-circle
distance to its nearest red-zone anchor is ≈ 19.03 m, which exceeds the
claimed 5 m. -/
theorem c3_counterexample : ¬ c3ClaimProp env3 1 := by
  intro hclaim
  obtain ⟨out, hout⟩ := Option.isSome_iff_exists.mp gen_env3_isSome
  obtain ⟨hrSub, hrBus, cl, rl, h1, h2, h3, h4, h5⟩ :=
    generateScenario_inv realMF env3 1 hout
  obtain ⟨hlen1, hmem1⟩ := genHighRiskLoop_spec _ _ _ _ _ _ _ _ _ _ _ 0 _ _ h1
  obtain ⟨hlen2, _⟩ := genHighRiskLoop_spec _ _ _ _ _ _ _ _ _ _ _ 0 _ _ h2
  obtain ⟨hlen3, _⟩ := genJitterLocLoop_spec _ _ _ _ _ _ _ _ _ 0 _ _ h3
  obtain ⟨hlen4, _⟩ := genJitterLocLoop_spec _ _ _ _ _ _ _ _ _ 0 _ _ h4
  rw [env3_count_subway] at hlen1
  rw [env3_count_bus] at hlen2
  rw [env3_count_commercial] at hlen3
  rw [env3_count_residential] at hlen4
  have hbusnil : hrBus = [] := List.length_eq_zero.mp hlen2
  have hclnil : cl = [] := List.length_eq_zero.mp hlen3
  have hrlnil : rl = [] := List.length_eq_zero.mp hlen4
  have hlenout : out.length = 1 := by
    rw [h5, reassignIds_length, (shuffleScooters_perm _ _).length_eq]
    simp [hbusnil, hclnil, hrlnil, mkLowBatteryScooters, hlen1]
  obtain ⟨s, hsout⟩ := List.length_eq_one.mp hlenout
  have hsmem : s ∈ out := by rw [hsout]; exact List.mem_singleton_self s
  -- trace s back to the subway batch
  have hs' : s ∈ reassignIds 0 (shuffleScooters env3.shuffleCmp
      ((hrSub ++ hrBus) ++ mkLowBatteryScooters env3.lbBattery 0
        (cl.map (fun l => (l, Origin.commercial)) ++
         rl.map (fun l => (l, Origin.residential))))) := by
    rw [← h5]; exact hsmem
  obtain ⟨t, ht, hloc, hstate, _⟩ := mem_reassignIds hs'
  have ht' := (shuffleScooters_perm env3.shuffleCmp _).mem_iff.mp ht
  rw [hbusnil, hclnil, hrlnil] at ht'
  simp only [List.append_nil, List.map_nil, List.nil_append,
    mkLowBatteryScooters] at ht'
  obtain ⟨htstate, _, k, anchor, hanchor, htloc⟩ := hmem1 t ht'
  have hanchor' : anchor = ⟨(37.5 : ℝ), 127⟩ := by
    rw [show subwayExitPOIs env3 = [⟨(37.5 : ℝ), 127⟩] from rfl] at hanchor
    exact List.mem_singleton.mp hanchor
  subst hanchor'
  have hsloc : s.location = ⟨(37.5 : ℝ) + 19 / 111000, 127⟩ := by
    rw [hloc, htloc, gvpna_env3_eval]
  obtain ⟨a, ha, hle⟩ := hclaim out hout s hsmem (hstate.trans htstate)
  rw [show redzoneAnchors env3 = [⟨(37.5 : ℝ), 127⟩] from rfl] at ha
  have ha' : a = ⟨(37.5 : ℝ), 127⟩ := List.mem_singleton.mp ha
  subst ha'
  rw [hsloc] at hle
  exact absurd hle (not_le.mpr hav_env3_gt_five)

/-- Amended C3: the high-risk jitter band is `[0, 20]` metres (the
source constant `RED_ZONE_RADIUS_METERS = 20`, not 5), and the bound
that actually holds is in the code's own planar metre approximation:
every emitted high-risk entity lies at squared planar offset `< 20²`
from some red-zone anchor (`0` in the retry-exhaustion fallback, which
returns the anchor itself). -/
theorem c3_planar_radius {F : Type} (env : GenEnv ℝ F) (count : ℕ)
    (hrad : RadInRange env) :
    OptF (AllP (fun s => s.state = ScooterState.C →
        ∃ a ∈ redzoneAnchors env, planarOffsetSq a s.location < 400))
      (generateScenario realMF env count) := by
  cases hgen : generateScenario realMF env count with
  | none => trivial
  | some out =>
    obtain ⟨hrSub, hrBus, cl, rl, h1, h2, h3, h4, h5⟩ :=
      generateScenario_inv realMF env count hgen
    obtain ⟨_, hmem1⟩ := genHighRiskLoop_spec _ _ _ _ _ _ _ _ _ _ _ 0 _ _ h1
    obtain ⟨_, hmem2⟩ := genHighRiskLoop_spec _ _ _ _ _ _ _ _ _ _ _ 0 _ _ h2
    subst h5
    show AllP _ _
    rw [allP_iff_mem]
    intro s hs hstate
    obtain ⟨t, ht, hloc, hst, _⟩ := mem_reassignIds hs
    have ht' := (shuffleScooters_perm env.shuffleCmp _).mem_iff.mp ht
    rcases List.mem_append.mp ht' with hhr | hlb
    · rcases List.mem_append.mp hhr with hsub | hbus
      · obtain ⟨_, _, k, anchor, hanchor, hl⟩ := hmem1 t hsub
        refine ⟨anchor, List.mem_append_left _ hanchor, ?_⟩
        rw [hloc, hl]
        exact gvpna_planar_lt env.inPoly env.boundaries _ _ anchor
          (fun j => hrad.1 k j)
      · obtain ⟨_, _, k, anchor, hanchor, hl⟩ := hmem2 t hbus
        refine ⟨anchor, List.mem_append_right _ hanchor, ?_⟩
        rw [hloc, hl]
        exact gvpna_planar_lt env.inPoly env.boundaries _ _ anchor
          (fun j => hrad.2 k j)
    · obtain ⟨pr, _, _, hstB, _⟩ := mem_mkLowBatteryScooters hlb
      rw [hst, hstB] at hstate
      cases hstate

theorem env3_rad_in_range : RadInRange env3 :=
  ⟨fun _ _ => ⟨by norm_num [env3], by norm_num [env3]⟩,
   fun _ _ => ⟨by norm_num [env3], by norm_num [env3]⟩⟩

/-- Witness for the amended C3: the oracle of `env3` draws radii in
`[0, 1)` and the run succeeds. -/
theorem c3_planar_radius_witness :
    RadInRange env3 ∧ (generateScenario realMF env3 1).isSome = true ∧
    OptF (AllP (fun s => s.state = ScooterState.C →
        ∃ a ∈ redzoneAnchors env3, planarOffsetSq a s.location < 400))
      (generateScenario realMF env3 1) :=
  ⟨env3_rad_in_range, gen_env3_isSome, c3_planar_radius env3 1 env3_rad_in_range⟩

/-! ## C7: the 200-location cap -/

theorem resolveWaypoint_mem {R : Type} (hub : Hub R)
    (scooters : List (ApiScooter R)) (name : String) :
    resolveWaypoint hub scooters name = hub.location ∨
    ∃ s ∈ scooters, resolveWaypoint hub scooters name = s.location := by
  unfold resolveWaypoint
  split
  · exact Or.inl rfl
  · cases hf : scooters.find? (fun s => s.id = name) with
    | none => exact Or.inl rfl
    | some s => exact Or.inr ⟨s, List.mem_of_find?_eq_some hf, rfl⟩

/-- Amended C7: when the location count exceeds the 200 cap, the
location list used is exactly the depot (element zero) followed by the
locations of the first 199 entities, and — on the solver-response path
— every waypoint of every returned route is the depot or one of those
first 199 entities.  (On the degraded-mode path the source passes the
*original* untruncated scooter list to the mock router, so beyond-cap
entities can appear: see the counterexample.) -/
theorem c7_truncation {R : Type} [LinearOrderedField R] [FloorRing R]
    (mf : MathFns R) (env : ApiEnv R) (scooters : List (ApiScooter R))
    (hub : Hub R) (truckCount : ℕ) (hlen : 200 ≤ scooters.length)
    (resp : OmeletVrpResponse) (hresp : env.omelet = some resp) :
    (solveVrpLocations scooters hub).length = 200 ∧
    (solveVrpLocations scooters hub).head? = some hub.location ∧
    (solveVrpLocations scooters hub).tail =
      (scooters.take 199).map (fun s => s.location) ∧
    AllP (fun r => AllP (fun p => p = hub.location ∨
        p ∈ (scooters.take 199).map (fun s => s.location)) r.path)
      (solveVrp mf env scooters hub truckCount) := by
  have hgt : (hub.location :: scooters.map (fun s => s.location)).length > 200 := by
    simp only [List.length_cons, List.length_map]
    omega
  have hcons : solveVrpLocations scooters hub =
      hub.location :: List.take 199 (scooters.map (fun s => s.location)) := by
    unfold solveVrpLocations
    dsimp only
    rw [if_pos hgt]
    exact List.take_succ_cons
  have hlen200 : (solveVrpLocations scooters hub).length = 200 := by
    rw [hcons]
    simp only [List.length_cons, List.length_take, List.length_map]
    omega
  have hws : workingScooters scooters hub = scooters.take 199 := by
    unfold workingScooters
    dsimp only
    rw [if_pos hgt, hlen200]
  refine ⟨hlen200, ?_, ?_, ?_⟩
  · rw [hcons]
    rfl
  · rw [hcons, List.map_take]
    rfl
  unfold solveVrp
  rw [hresp]
  dsimp only
  rw [allP_iff_mem]
  intro r hr
  unfold parseVrpResponseWithGeometry at hr
  rcases List.mem_map.mp hr with ⟨p, _, rfl⟩
  dsimp only
  rw [allP_iff_mem]
  intro q hq
  rcases List.mem_map.mp hq with ⟨name, _, rfl⟩
  rcases resolveWaypoint_mem hub (workingScooters scooters hub) name with
    h | ⟨s, hsmem, h⟩
  · exact Or.inl h
  · rw [hws] at hsmem
    exact Or.inr (h ▸ List.mem_map.mpr ⟨s, hsmem, rfl⟩)

set_option maxRecDepth 100000 in
theorem scooters200_length : scooters200.length = 200 := by
  decide

/-- Witness for the amended C7: 200 entities (201 locations) and a
successful solver response. -/
theorem c7_truncation_witness :
    (200 ≤ scooters200.length ∧ apiEnvSolverEmpty.omelet =
      some { routes := [], unassigned_visit_names := [] }) ∧
    ((solveVrpLocations scooters200 hub0).length = 200 ∧
     (solveVrpLocations scooters200 hub0).head? = some hub0.location ∧
     (solveVrpLocations scooters200 hub0).tail =
       (scooters200.take 199).map (fun s => s.location) ∧
     AllP (fun r => AllP (fun p => p = hub0.location ∨
         p ∈ (scooters200.take 199).map (fun s => s.location)) r.path)
       (solveVrp ratMF apiEnvSolverEmpty scooters200 hub0 3)) :=
  ⟨⟨scooters200_length.ge, rfl⟩,
   c7_truncation ratMF apiEnvSolverEmpty scooters200 hub0 3
     scooters200_length.ge _ rfl⟩

set_option maxRecDepth 100000 in
set_option maxHeartbeats 2000000 in
/-- Counterexample to C7 as stated: with 200 entities (201 locations,
above the cap) and the solver unreachable, the catch path hands the
*original* scooter list to the degraded-mode router, so the beyond-cap
entity (index 199) appears in a returned route. -/
theorem c7_counterexample :
    ¬ c7ClaimAt ratMF apiEnvNoSolver scooters200 hub0 3 := by
  unfold c7ClaimAt
  decide
